import Mathlib

/-!
Verification development for the MIA indexed-memory peripheral
(256-slot indirection table over a flat backing store, bus-register
front end and interrupt controller).

The definitions below are a shallow embedding of the C sources:
  * `src/indexed_memory/indexed_memory.c` / `.h`  (engine, its IRQ registers)
  * `src/irq/irq.c`                               (standalone IRQ module)
  * `src/bus_interface/bus_interface.c`           (8-bit bus decoder)
  * `tests/mocks/indexed_memory_dma_mock.c`       (synchronous DMA double)
Machine integers are modelled as `Nat` with explicit masking where the C
code stores into a fixed-width field (`uint8_t`/`uint16_t`/`uint32_t`).
-/

namespace ClementinaMia

set_option maxRecDepth 100000

/-- Size of the flat MIA backing store (MIA_MEMORY_SIZE, 256KB). -/
def MIA_MEMORY_SIZE : Nat := 0x40000

/-- Base of the system area in the backing store (MIA_SYSTEM_AREA_BASE). -/
def MIA_SYSTEM_AREA_BASE : Nat := 0x00000800

/-- Base of the video area in the backing store (MIA_VIDEO_AREA_BASE). -/
def MIA_VIDEO_AREA_BASE : Nat := 0x00004800

/-- Base of the user area in the backing store (MIA_USER_AREA_BASE). -/
def MIA_USER_AREA_BASE : Nat := 0x00013800

/-- Base of the I/O buffer area in the backing store (MIA_IO_BUFFER_BASE). -/
def MIA_IO_BUFFER_BASE : Nat := 0x0003C000

/-- Slot flag bit: auto-step after each access (FLAG_AUTO_STEP). -/
def FLAG_AUTO_STEP : Nat := 0x01

/-- Slot flag bit: step direction, 0 = forward, 1 = backward (FLAG_DIRECTION). -/
def FLAG_DIRECTION : Nat := 0x02

/-- Slot flag bit: wrap to default when crossing the limit (FLAG_WRAP_ON_LIMIT). -/
def FLAG_WRAP_ON_LIMIT : Nat := 0x04

/-- Status register bit: an interrupt is pending (STATUS_IRQ_PENDING). -/
def STATUS_IRQ_PENDING : Nat := 0x02

/-- Status register bit: a memory-bounds error occurred (STATUS_MEMORY_ERROR). -/
def STATUS_MEMORY_ERROR : Nat := 0x04

/-- Status register bit: a DMA transfer is in flight (STATUS_DMA_ACTIVE). -/
def STATUS_DMA_ACTIVE : Nat := 0x40

/-- Status register bit: system initialized and ready (STATUS_SYSTEM_READY). -/
def STATUS_SYSTEM_READY : Nat := 0x80

/-- Interrupt cause bit 0: memory-bounds error (IRQ_MEMORY_ERROR). -/
def IRQ_MEMORY_ERROR : Nat := 0x0001

/-- Interrupt cause bit 2: DMA transfer completed (IRQ_DMA_COMPLETE). -/
def IRQ_DMA_COMPLETE : Nat := 0x0004

/-- Interrupt cause bit 3: DMA conflict or bounds error (IRQ_DMA_ERROR). -/
def IRQ_DMA_ERROR : Nat := 0x0008

/-- Command code 0x00: no operation (CMD_NOP). -/
def CMD_NOP : Nat := 0x00

/-- Command code 0x01: reset the window-A slot to its default (CMD_RESET_INDEX). -/
def CMD_RESET_INDEX : Nat := 0x01

/-- Command code 0x02: reset every slot to its default (CMD_RESET_ALL). -/
def CMD_RESET_ALL : Nat := 0x02

/-- Command code 0x05: clear all interrupt causes (CMD_CLEAR_IRQ). -/
def CMD_CLEAR_IRQ : Nat := 0x05

/-- Command code 0x07: launch the configured DMA block copy (CMD_COPY_BLOCK). -/
def CMD_COPY_BLOCK : Nat := 0x07

/-- Command code 0x08: set the DMA source slot from window A (CMD_SET_COPY_SRC). -/
def CMD_SET_COPY_SRC : Nat := 0x08

/-- Command code 0x09: set the DMA destination slot from window A (CMD_SET_COPY_DST). -/
def CMD_SET_COPY_DST : Nat := 0x09

/-- Command code 0x10: reinitialize the whole engine (CMD_PICO_REINIT). -/
def CMD_PICO_REINIT : Nat := 0x10

/-- One memory indirection slot (`index_t` in indexed_memory.h): 24-bit
current/default/limit addresses, an 8-bit step and the behaviour flags. -/
structure IndexSlot where
  current_addr : Nat
  default_addr : Nat
  limit_addr : Nat
  step : Nat
  flags : Nat
deriving Repr, DecidableEq

/-- Global DMA copy configuration (`dma_config_t`): source slot,
destination slot and 16-bit byte count. -/
structure DmaConfig where
  src_idx : Nat
  dst_idx : Nat
  count : Nat
deriving Repr, DecidableEq

/-- Whole engine state (`indexed_memory_state_t` plus the backing store
`mia_memory` and the mock DMA busy flag).  The 256 slots are modelled as a
function from the slot number; only arguments 0-255 are ever used. -/
structure EngineState where
  indexes : Nat → IndexSlot
  dma_config : DmaConfig
  status : Nat
  irq_cause : Nat
  irq_mask : Nat
  irq_enable : Nat
  window_a_idx : Nat
  window_b_idx : Nat
  cfg_field_a : Nat
  cfg_field_b : Nat
  mem : Nat → Nat
  dma_busy : Bool

/-- Update one slot of the slot table, leaving every other slot untouched. -/
def updSlot (f : Nat → IndexSlot) (idx : Nat) (sl : IndexSlot) : Nat → IndexSlot :=
  fun i => if i = idx then sl else f i

/-- indexed_memory_set_index_address: store a current address masked to 24 bits. -/
def indexed_memory_set_index_address (st : EngineState) (idx addr : Nat) : EngineState :=
  { st with indexes := updSlot st.indexes idx ({ st.indexes idx with current_addr := addr &&& 0xFFFFFF }) }

/-- indexed_memory_set_index_default: store a default address masked to 24 bits. -/
def indexed_memory_set_index_default (st : EngineState) (idx addr : Nat) : EngineState :=
  { st with indexes := updSlot st.indexes idx ({ st.indexes idx with default_addr := addr &&& 0xFFFFFF }) }

/-- indexed_memory_set_index_limit: store a limit address masked to 24 bits. -/
def indexed_memory_set_index_limit (st : EngineState) (idx addr : Nat) : EngineState :=
  { st with indexes := updSlot st.indexes idx ({ st.indexes idx with limit_addr := addr &&& 0xFFFFFF }) }

/-- indexed_memory_set_index_step: store the 8-bit step size. -/
def indexed_memory_set_index_step (st : EngineState) (idx step : Nat) : EngineState :=
  { st with indexes := updSlot st.indexes idx ({ st.indexes idx with step := step % 256 }) }

/-- indexed_memory_set_index_flags: store the 8-bit flag byte. -/
def indexed_memory_set_index_flags (st : EngineState) (idx flags : Nat) : EngineState :=
  { st with indexes := updSlot st.indexes idx ({ st.indexes idx with flags := flags % 256 }) }

/-- indexed_memory_reset_index: current address back to the default address. -/
def indexed_memory_reset_index (st : EngineState) (idx : Nat) : EngineState :=
  { st with indexes := updSlot st.indexes idx ({ st.indexes idx with current_addr := (st.indexes idx).default_addr }) }

/-- indexed_memory_reset_all: reset every one of the 256 slots to its default. -/
def indexed_memory_reset_all (st : EngineState) : EngineState :=
  { st with indexes := fun i =>
      if i < 256 then { st.indexes i with current_addr := (st.indexes i).default_addr }
      else st.indexes i }

/-- indexed_memory_set_irq: OR the cause bits in and assert the pending
status bit when global enable is on and an unmasked cause is pending. -/
def indexed_memory_set_irq (st : EngineState) (cause : Nat) : EngineState :=
  let c := st.irq_cause ||| (cause % 65536)
  let s := if st.irq_enable ≠ 0 ∧ c &&& st.irq_mask ≠ 0
           then st.status ||| STATUS_IRQ_PENDING else st.status
  { st with irq_cause := c, status := s }

/-- Shared shape of the engine's cause-clearing operations: AND the cause
register with a keep-mask and deassert the pending status bit when no
unmasked cause remains (the common body of write_irq_cause_low/high and
clear_specific_irq in indexed_memory.c). -/
def clearCauseBits (st : EngineState) (keep : Nat) : EngineState :=
  let c := st.irq_cause &&& keep
  let s := if c &&& st.irq_mask = 0
           then st.status &&& (0xFF ^^^ STATUS_IRQ_PENDING) else st.status
  { st with irq_cause := c, status := s }

/-- indexed_memory_write_irq_cause_low: write-1-to-clear on the low byte of
the cause register; deassert the pending bit if nothing unmasked remains. -/
def indexed_memory_write_irq_cause_low (st : EngineState) (clear_bits : Nat) : EngineState :=
  clearCauseBits st (0xFFFF ^^^ (clear_bits % 256))

/-- indexed_memory_write_irq_cause_high: write-1-to-clear on the high byte of
the cause register; deassert the pending bit if nothing unmasked remains. -/
def indexed_memory_write_irq_cause_high (st : EngineState) (clear_bits : Nat) : EngineState :=
  clearCauseBits st (0xFFFF ^^^ ((clear_bits % 256) <<< 8))

/-- indexed_memory_clear_irq: clear every cause bit and the pending status bit. -/
def indexed_memory_clear_irq (st : EngineState) : EngineState :=
  { st with irq_cause := 0, status := st.status &&& (0xFF ^^^ STATUS_IRQ_PENDING) }

/-- indexed_memory_clear_specific_irq: clear the given cause bits; deassert
the pending bit if nothing unmasked remains. -/
def indexed_memory_clear_specific_irq (st : EngineState) (cause : Nat) : EngineState :=
  clearCauseBits st (0xFFFF ^^^ (cause % 65536))

/-- indexed_memory_set_irq_mask: replace the 16-bit mask and re-evaluate
the pending status bit. -/
def indexed_memory_set_irq_mask (st : EngineState) (mask : Nat) : EngineState :=
  let m := mask % 65536
  let s := if st.irq_cause &&& m = 0 then st.status &&& (0xFF ^^^ STATUS_IRQ_PENDING)
           else if st.irq_enable ≠ 0 then st.status ||| STATUS_IRQ_PENDING
           else st.status
  { st with irq_mask := m, status := s }

/-- indexed_memory_set_irq_enable: normalize to 0/1 and re-evaluate the
pending status bit. -/
def indexed_memory_set_irq_enable (st : EngineState) (enable : Nat) : EngineState :=
  if enable ≠ 0 then
    { st with
      irq_enable := 1,
      status := if st.irq_cause &&& st.irq_mask ≠ 0
                then st.status ||| STATUS_IRQ_PENDING else st.status }
  else
    { st with irq_enable := 0, status := st.status &&& (0xFF ^^^ STATUS_IRQ_PENDING) }

/-- indexed_memory_read: validate the current address, fetch the byte, then
auto-step (with optional wrap-on-limit) exactly as the C code does.  The C
address arithmetic is on `uint32_t`, hence the explicit mod 2^32. -/
def indexed_memory_read (st : EngineState) (idx : Nat) : Nat × EngineState :=
  let addr := (st.indexes idx).current_addr
  let flags := (st.indexes idx).flags
  if MIA_MEMORY_SIZE ≤ addr then
    (0, indexed_memory_set_irq
          { st with status := st.status ||| STATUS_MEMORY_ERROR } IRQ_MEMORY_ERROR)
  else
    let data := st.mem addr
    if flags &&& FLAG_AUTO_STEP ≠ 0 then
      let step := (st.indexes idx).step
      let addr2 :=
        if flags &&& FLAG_DIRECTION ≠ 0 then
          let a := (addr + 4294967296 - step) % 4294967296
          if flags &&& FLAG_WRAP_ON_LIMIT ≠ 0 ∧ a < (st.indexes idx).limit_addr
          then (st.indexes idx).default_addr else a
        else
          let a := (addr + step) % 4294967296
          if flags &&& FLAG_WRAP_ON_LIMIT ≠ 0 ∧ (st.indexes idx).limit_addr ≤ a
          then (st.indexes idx).default_addr else a
      (data, { st with indexes := updSlot st.indexes idx ({ st.indexes idx with current_addr := addr2 }) })
    else
      (data, st)

/-- indexed_memory_write: validate the current address, store the byte, then
auto-step (with optional wrap-on-limit) exactly as the C code does. -/
def indexed_memory_write (st : EngineState) (idx data : Nat) : EngineState :=
  let addr := (st.indexes idx).current_addr
  let flags := (st.indexes idx).flags
  if MIA_MEMORY_SIZE ≤ addr then
    indexed_memory_set_irq
      { st with status := st.status ||| STATUS_MEMORY_ERROR } IRQ_MEMORY_ERROR
  else
    let st1 := { st with mem := fun a => if a = addr then data % 256 else st.mem a }
    if flags &&& FLAG_AUTO_STEP ≠ 0 then
      let step := (st.indexes idx).step
      let addr2 :=
        if flags &&& FLAG_DIRECTION ≠ 0 then
          let a := (addr + 4294967296 - step) % 4294967296
          if flags &&& FLAG_WRAP_ON_LIMIT ≠ 0 ∧ a < (st.indexes idx).limit_addr
          then (st.indexes idx).default_addr else a
        else
          let a := (addr + step) % 4294967296
          if flags &&& FLAG_WRAP_ON_LIMIT ≠ 0 ∧ (st.indexes idx).limit_addr ≤ a
          then (st.indexes idx).default_addr else a
      { st1 with indexes := updSlot st.indexes idx ({ st.indexes idx with current_addr := addr2 }) }
    else
      st1

/-- indexed_memory_read_no_step: validate and fetch without stepping. -/
def indexed_memory_read_no_step (st : EngineState) (idx : Nat) : Nat × EngineState :=
  let addr := (st.indexes idx).current_addr
  if MIA_MEMORY_SIZE ≤ addr then
    (0, indexed_memory_set_irq
          { st with status := st.status ||| STATUS_MEMORY_ERROR } IRQ_MEMORY_ERROR)
  else
    (st.mem addr, st)

/-- indexed_memory_write_no_step: validate and store without stepping. -/
def indexed_memory_write_no_step (st : EngineState) (idx data : Nat) : EngineState :=
  let addr := (st.indexes idx).current_addr
  if MIA_MEMORY_SIZE ≤ addr then
    indexed_memory_set_irq
      { st with status := st.status ||| STATUS_MEMORY_ERROR } IRQ_MEMORY_ERROR
  else
    { st with mem := fun a => if a = addr then data % 256 else st.mem a }

/-- indexed_memory_get_config_field: read one byte of the slot configuration
(or of the global DMA configuration); unknown field ids read as 0. -/
def indexed_memory_get_config_field (st : EngineState) (idx field : Nat) : Nat :=
  match field with
  | 0x00 => (st.indexes idx).current_addr &&& 0xFF
  | 0x01 => ((st.indexes idx).current_addr >>> 8) &&& 0xFF
  | 0x02 => ((st.indexes idx).current_addr >>> 16) &&& 0xFF
  | 0x03 => (st.indexes idx).default_addr &&& 0xFF
  | 0x04 => ((st.indexes idx).default_addr >>> 8) &&& 0xFF
  | 0x05 => ((st.indexes idx).default_addr >>> 16) &&& 0xFF
  | 0x06 => (st.indexes idx).limit_addr &&& 0xFF
  | 0x07 => ((st.indexes idx).limit_addr >>> 8) &&& 0xFF
  | 0x08 => ((st.indexes idx).limit_addr >>> 16) &&& 0xFF
  | 0x09 => (st.indexes idx).step
  | 0x0A => (st.indexes idx).flags
  | 0x0B => st.dma_config.src_idx
  | 0x0C => st.dma_config.dst_idx
  | 0x0D => st.dma_config.count &&& 0xFF
  | 0x0E => (st.dma_config.count >>> 8) &&& 0xFF
  | _ => 0

/-- indexed_memory_set_config_field: write one byte of the slot configuration
(or of the global DMA configuration); unknown field ids are ignored. -/
def indexed_memory_set_config_field (st : EngineState) (idx field value : Nat) : EngineState :=
  let v := value % 256
  match field with
  | 0x00 => { st with indexes := updSlot st.indexes idx ({ st.indexes idx with current_addr := ((st.indexes idx).current_addr &&& 0xFFFF00) ||| v }) }
  | 0x01 => { st with indexes := updSlot st.indexes idx ({ st.indexes idx with current_addr := ((st.indexes idx).current_addr &&& 0xFF00FF) ||| (v <<< 8) }) }
  | 0x02 => { st with indexes := updSlot st.indexes idx ({ st.indexes idx with current_addr := ((st.indexes idx).current_addr &&& 0x00FFFF) ||| (v <<< 16) }) }
  | 0x03 => { st with indexes := updSlot st.indexes idx ({ st.indexes idx with default_addr := ((st.indexes idx).default_addr &&& 0xFFFF00) ||| v }) }
  | 0x04 => { st with indexes := updSlot st.indexes idx ({ st.indexes idx with default_addr := ((st.indexes idx).default_addr &&& 0xFF00FF) ||| (v <<< 8) }) }
  | 0x05 => { st with indexes := updSlot st.indexes idx ({ st.indexes idx with default_addr := ((st.indexes idx).default_addr &&& 0x00FFFF) ||| (v <<< 16) }) }
  | 0x06 => { st with indexes := updSlot st.indexes idx ({ st.indexes idx with limit_addr := ((st.indexes idx).limit_addr &&& 0xFFFF00) ||| v }) }
  | 0x07 => { st with indexes := updSlot st.indexes idx ({ st.indexes idx with limit_addr := ((st.indexes idx).limit_addr &&& 0xFF00FF) ||| (v <<< 8) }) }
  | 0x08 => { st with indexes := updSlot st.indexes idx ({ st.indexes idx with limit_addr := ((st.indexes idx).limit_addr &&& 0x00FFFF) ||| (v <<< 16) }) }
  | 0x09 => { st with indexes := updSlot st.indexes idx ({ st.indexes idx with step := v }) }
  | 0x0A => { st with indexes := updSlot st.indexes idx ({ st.indexes idx with flags := v }) }
  | 0x0B => { st with dma_config := { st.dma_config with src_idx := v } }
  | 0x0C => { st with dma_config := { st.dma_config with dst_idx := v } }
  | 0x0D => { st with dma_config := { st.dma_config with count := (st.dma_config.count &&& 0xFF00) ||| v } }
  | 0x0E => { st with dma_config := { st.dma_config with count := (st.dma_config.count &&& 0x00FF) ||| (v <<< 8) } }
  | _ => st

/-- Effect of `memcpy(dst, src, count)` on the modelled backing store. -/
def copyMem (mem : Nat → Nat) (dst src count : Nat) : Nat → Nat :=
  fun a => if dst ≤ a ∧ a < dst + count then mem (src + (a - dst)) else mem a

/-- indexed_memory_copy_block, composed with the synchronous test-double DMA
(tests/mocks/indexed_memory_dma_mock.c): validate, reject if a transfer is
in flight, otherwise mark DMA active, copy the bytes, and run the completion
callback (clear DMA-active, raise IRQ_DMA_COMPLETE).  The mock's busy flag
is briefly true during the call and false again when it returns. -/
def indexed_memory_copy_block (st : EngineState) (src_idx dst_idx count : Nat) : EngineState :=
  let cnt := count % 65536
  if cnt = 0 then st
  else
    let src_addr := (st.indexes src_idx).current_addr
    let dst_addr := (st.indexes dst_idx).current_addr
    if MIA_MEMORY_SIZE ≤ src_addr then
      indexed_memory_set_irq
        { st with status := st.status ||| STATUS_MEMORY_ERROR } IRQ_MEMORY_ERROR
    else if MIA_MEMORY_SIZE ≤ dst_addr then
      indexed_memory_set_irq
        { st with status := st.status ||| STATUS_MEMORY_ERROR } IRQ_MEMORY_ERROR
    else if MIA_MEMORY_SIZE < src_addr + cnt ∨ MIA_MEMORY_SIZE < dst_addr + cnt then
      indexed_memory_set_irq
        { st with status := st.status ||| STATUS_MEMORY_ERROR } IRQ_DMA_ERROR
    else if st.status &&& STATUS_DMA_ACTIVE ≠ 0 then
      indexed_memory_set_irq st IRQ_DMA_ERROR
    else
      let st1 := { st with status := st.status ||| STATUS_DMA_ACTIVE }
      let st2 := { st1 with mem := copyMem st1.mem dst_addr src_addr cnt, dma_busy := false }
      let st3 := { st2 with status := st2.status &&& (0xFF ^^^ STATUS_DMA_ACTIVE) }
      indexed_memory_set_irq st3 IRQ_DMA_COMPLETE

/-- indexed_memory_set_window_index. -/
def indexed_memory_set_window_index (st : EngineState) (window_b : Bool) (idx : Nat) : EngineState :=
  if window_b then { st with window_b_idx := idx % 256 }
  else { st with window_a_idx := idx % 256 }

/-- indexed_memory_set_config_field_select. -/
def indexed_memory_set_config_field_select (st : EngineState) (window_b : Bool) (field : Nat) : EngineState :=
  if window_b then { st with cfg_field_b := field % 256 }
  else { st with cfg_field_a := field % 256 }

/-- The all-zero slot (state after `memset(&g_state, 0, ...)`). -/
def zeroSlot : IndexSlot := ⟨0, 0, 0, 0, 0⟩

/-- Engine state right after the two memsets in indexed_memory_init.  The
mock DMA busy flag lives outside `g_state` and is not cleared by init. -/
def engineZero (busy : Bool) : EngineState :=
  { indexes := fun _ => zeroSlot
    dma_config := ⟨0, 0, 0⟩
    status := 0
    irq_cause := 0
    irq_mask := 0
    irq_enable := 0
    window_a_idx := 0
    window_b_idx := 0
    cfg_field_a := 0
    cfg_field_b := 0
    mem := fun _ => 0
    dma_busy := busy }

/-- indexed_memory_init: clear all state, set the status/IRQ defaults and
install the fixed factory slot layout, exactly following the C code. -/
def indexed_memory_init (busy : Bool) : EngineState :=
  let st := { engineZero busy with
              status := STATUS_SYSTEM_READY, irq_cause := 0,
              irq_mask := 0xFFFF, irq_enable := 0x01 }
  let st := indexed_memory_set_index_address st 0 MIA_SYSTEM_AREA_BASE
  let st := indexed_memory_set_index_default st 0 MIA_SYSTEM_AREA_BASE
  let st := indexed_memory_set_index_step st 0 1
  let st := indexed_memory_set_index_flags st 0 FLAG_AUTO_STEP
  let st := (List.range 8).foldl (fun s i =>
    let idx := 16 + i
    let addr := MIA_VIDEO_AREA_BASE + i * (256 * 24)
    let s := indexed_memory_set_index_address s idx addr
    let s := indexed_memory_set_index_default s idx addr
    let s := indexed_memory_set_index_limit s idx (addr + 256 * 24)
    let s := indexed_memory_set_index_step s idx 1
    indexed_memory_set_index_flags s idx (FLAG_AUTO_STEP ||| FLAG_WRAP_ON_LIMIT)) st
  let palette_base := MIA_VIDEO_AREA_BASE + 8 * (256 * 24)
  let st := (List.range 16).foldl (fun s i =>
    let idx := 32 + i
    let addr := palette_base + i * 16
    let s := indexed_memory_set_index_address s idx addr
    let s := indexed_memory_set_index_default s idx addr
    let s := indexed_memory_set_index_limit s idx (addr + 16)
    let s := indexed_memory_set_index_step s idx 1
    indexed_memory_set_index_flags s idx (FLAG_AUTO_STEP ||| FLAG_WRAP_ON_LIMIT)) st
  let nametable_base := palette_base + 16 * 16
  let st := (List.range 4).foldl (fun s i =>
    let idx := 48 + i
    let addr := nametable_base + i * (40 * 25)
    let s := indexed_memory_set_index_address s idx addr
    let s := indexed_memory_set_index_default s idx addr
    let s := indexed_memory_set_index_limit s idx (addr + 40 * 25)
    let s := indexed_memory_set_index_step s idx 1
    indexed_memory_set_index_flags s idx (FLAG_AUTO_STEP ||| FLAG_WRAP_ON_LIMIT)) st
  let palette_table_base := nametable_base + 4 * (40 * 25)
  let st := (List.range 4).foldl (fun s i =>
    let idx := 52 + i
    let addr := palette_table_base + i * (40 * 25)
    let s := indexed_memory_set_index_address s idx addr
    let s := indexed_memory_set_index_default s idx addr
    let s := indexed_memory_set_index_limit s idx (addr + 40 * 25)
    let s := indexed_memory_set_index_step s idx 1
    indexed_memory_set_index_flags s idx (FLAG_AUTO_STEP ||| FLAG_WRAP_ON_LIMIT)) st
  let sprite_oam_base := palette_table_base + 4 * (40 * 25)
  let st := indexed_memory_set_index_address st 56 sprite_oam_base
  let st := indexed_memory_set_index_default st 56 sprite_oam_base
  let st := indexed_memory_set_index_limit st 56 (sprite_oam_base + 256 * 4)
  let st := indexed_memory_set_index_step st 56 4
  let st := indexed_memory_set_index_flags st 56 (FLAG_AUTO_STEP ||| FLAG_WRAP_ON_LIMIT)
  let active_frame_base := sprite_oam_base + 256 * 4
  let st := indexed_memory_set_index_address st 57 active_frame_base
  let st := indexed_memory_set_index_default st 57 active_frame_base
  let st := indexed_memory_set_index_step st 57 1
  let st := indexed_memory_set_index_flags st 57 0
  let usb_base := MIA_IO_BUFFER_BASE
  let st := indexed_memory_set_index_address st 64 usb_base
  let st := indexed_memory_set_index_default st 64 usb_base
  let st := indexed_memory_set_index_limit st 64 (usb_base + 64)
  let st := indexed_memory_set_index_step st 64 1
  let st := indexed_memory_set_index_flags st 64 (FLAG_AUTO_STEP ||| FLAG_WRAP_ON_LIMIT)
  let st := indexed_memory_set_index_address st 65 (usb_base + 64)
  let st := indexed_memory_set_index_default st 65 (usb_base + 64)
  let st := indexed_memory_set_index_step st 65 1
  let st := indexed_memory_set_index_flags st 65 0
  let sysctrl_base := MIA_SYSTEM_AREA_BASE + 0x1000
  let st := indexed_memory_set_index_address st 80 sysctrl_base
  let st := indexed_memory_set_index_default st 80 sysctrl_base
  let st := indexed_memory_set_index_step st 80 1
  let st := indexed_memory_set_index_flags st 80 0
  let st := indexed_memory_set_index_address st 81 (sysctrl_base + 16)
  let st := indexed_memory_set_index_default st 81 (sysctrl_base + 16)
  let st := indexed_memory_set_index_step st 81 1
  let st := indexed_memory_set_index_flags st 81 0
  let st := indexed_memory_set_index_address st 83 (sysctrl_base + 48)
  let st := indexed_memory_set_index_default st 83 (sysctrl_base + 48)
  let st := indexed_memory_set_index_step st 83 1
  let st := indexed_memory_set_index_flags st 83 0
  let st := indexed_memory_set_index_address st 84 (sysctrl_base + 49)
  let st := indexed_memory_set_index_default st 84 (sysctrl_base + 49)
  let st := indexed_memory_set_index_step st 84 1
  let st := indexed_memory_set_index_flags st 84 0
  let st := (List.range 128).foldl (fun s i =>
    let idx := 128 + i
    let s := indexed_memory_set_index_address s idx MIA_USER_AREA_BASE
    let s := indexed_memory_set_index_default s idx MIA_USER_AREA_BASE
    let s := indexed_memory_set_index_step s idx 1
    indexed_memory_set_index_flags s idx FLAG_AUTO_STEP) st
  st

/-- indexed_memory_execute_command: the single command dispatcher present in
indexed_memory.c (switch over the CMD_... codes of indexed_memory.h). -/
def indexed_memory_execute_command (st : EngineState) (cmd : Nat) : EngineState :=
  match cmd with
  | 0x00 => st
  | 0x01 => indexed_memory_reset_index st st.window_a_idx
  | 0x02 => indexed_memory_reset_all st
  | 0x05 => indexed_memory_clear_irq st
  | 0x07 => indexed_memory_copy_block st st.dma_config.src_idx st.dma_config.dst_idx st.dma_config.count
  | 0x08 => { st with dma_config := { st.dma_config with src_idx := st.window_a_idx } }
  | 0x09 => { st with dma_config := { st.dma_config with dst_idx := st.window_a_idx } }
  | 0x10 => indexed_memory_init st.dma_busy
  | _ => st

/-- Modelled from the spec: `indexed_memory_execute_window_command` is called
by the bus dispatcher but its body is not under src/ (only callers and tests
exist).  Spec 4.2/6: window command codes are 0=NOP, 1=RESET_INDEX
(current_address to default), 2=SET_DEFAULT_TO_ADDR (default_address to
current), 3=SET_LIMIT_TO_ADDR (limit_address to current); unknown codes are
ignored. -/
def indexed_memory_execute_window_command (st : EngineState) (idx cmd : Nat) : EngineState :=
  match cmd with
  | 0 => st
  | 1 => indexed_memory_reset_index st idx
  | 2 => indexed_memory_set_index_default st idx (st.indexes idx).current_addr
  | 3 => indexed_memory_set_index_limit st idx (st.indexes idx).current_addr
  | _ => st

/-- Modelled from the spec: `indexed_memory_execute_shared_command` is called
by the bus dispatcher but its body is not under src/ (only callers and tests
exist).  Spec 4.2/6: shared command codes are 0=NOP, 1=RESET_ALL,
2=FACTORY_RESET (full reinit plus clearing all interrupts), 3=CLEAR_IRQ,
4=COPY_BLOCK (launch the configured DMA copy), 5=SYSTEM_RESET (behaves like
FACTORY_RESET in test/simulation builds); unknown codes are ignored. -/
def indexed_memory_execute_shared_command (st : EngineState) (cmd : Nat) : EngineState :=
  match cmd with
  | 0 => st
  | 1 => indexed_memory_reset_all st
  | 2 => indexed_memory_clear_irq (indexed_memory_init st.dma_busy)
  | 3 => indexed_memory_clear_irq st
  | 4 => indexed_memory_copy_block st st.dma_config.src_idx st.dma_config.dst_idx st.dma_config.count
  | 5 => indexed_memory_clear_irq (indexed_memory_init st.dma_busy)
  | _ => st

/-- State of the standalone IRQ module (irq.c): 16-bit cause, 16-bit mask,
global enable, and the physical IRQ line to the 6502 (true = asserted,
i.e. GPIO driven low). -/
structure IrqState where
  irq_cause : Nat
  irq_mask : Nat
  irq_enable : Nat
  line_asserted : Bool
deriving Repr, DecidableEq

/-- irq_init: no cause pending, all sources unmasked, globally enabled,
line deasserted. -/
def irq_init : IrqState := ⟨0, 0xFFFF, 0x01, false⟩

/-- irq_set_bits: accumulate cause bits; assert the line if an unmasked
cause is pending and interrupts are globally enabled. -/
def irq_set_bits (st : IrqState) (cause : Nat) : IrqState :=
  let c := st.irq_cause ||| (cause % 65536)
  { st with
    irq_cause := c,
    line_asserted :=
      if st.irq_enable ≠ 0 ∧ c &&& st.irq_mask ≠ 0 then true else st.line_asserted }

/-- Shared shape of the IRQ module cause-clearing operations: AND the
cause register with a keep-mask and deassert the line when no unmasked
cause remains (common body of irq_clear_bits and irq_write_cause_low/high). -/
def irqClearShape (st : IrqState) (keep : Nat) : IrqState :=
  let c := st.irq_cause &&& keep
  { st with
    irq_cause := c,
    line_asserted := if c &&& st.irq_mask = 0 then false else st.line_asserted }

/-- irq_clear_bits: clear cause bits; deassert the line when no unmasked
cause remains. -/
def irq_clear_bits (st : IrqState) (cause : Nat) : IrqState :=
  irqClearShape st (0xFFFF ^^^ (cause % 65536))

/-- irq_clear_all: clear every cause bit and deassert the line. -/
def irq_clear_all (st : IrqState) : IrqState :=
  { st with irq_cause := 0, line_asserted := false }

/-- irq_write_cause_low: write-1-to-clear on the low cause byte; deassert
the line when no unmasked cause remains. -/
def irq_write_cause_low (st : IrqState) (clear_bits : Nat) : IrqState :=
  irqClearShape st (0xFFFF ^^^ (clear_bits % 256))

/-- irq_write_cause_high: write-1-to-clear on the high cause byte; deassert
the line when no unmasked cause remains. -/
def irq_write_cause_high (st : IrqState) (clear_bits : Nat) : IrqState :=
  irqClearShape st (0xFFFF ^^^ ((clear_bits % 256) <<< 8))

/-- irq_set_mask: replace the mask and re-evaluate the line. -/
def irq_set_mask (st : IrqState) (mask : Nat) : IrqState :=
  let m := mask % 65536
  { st with
    irq_mask := m,
    line_asserted :=
      if st.irq_cause &&& m = 0 then false
      else if st.irq_enable ≠ 0 then true
      else st.line_asserted }

/-- irq_set_enable: normalize to 0/1 and re-evaluate the line. -/
def irq_set_enable (st : IrqState) (enable : Nat) : IrqState :=
  if enable ≠ 0 then
    { st with
      irq_enable := 1,
      line_asserted :=
        if st.irq_cause &&& st.irq_mask ≠ 0 then true else st.line_asserted }
  else
    { st with irq_enable := 0, line_asserted := false }

/-- irq_is_pending: true iff interrupts are globally enabled and an
unmasked cause bit is set. -/
def irq_is_pending (st : IrqState) : Bool :=
  decide (st.irq_enable ≠ 0 ∧ st.irq_cause &&& st.irq_mask ≠ 0)

/-- Register offset 0 within a window: IDX_SELECT (bus_interface.h). -/
def REG_OFFSET_IDX_SELECT : Nat := 0x00

/-- Register offset 1 within a window: DATA_PORT (bus_interface.h). -/
def REG_OFFSET_DATA_PORT : Nat := 0x01

/-- Register offset 2 within a window: CFG_FIELD_SELECT (bus_interface.h). -/
def REG_OFFSET_CFG_FIELD_SELECT : Nat := 0x02

/-- Register offset 3 within a window: CFG_DATA (bus_interface.h). -/
def REG_OFFSET_CFG_DATA : Nat := 0x03

/-- Register offset 4 within a window: COMMAND (bus_interface.h). -/
def REG_OFFSET_COMMAND : Nat := 0x04

/-- Modelled from the spec: the shared-register addresses REG_DEVICE_STATUS
(0xF0) through REG_IRQ_ENABLE (0xF5) and REG_SHARED_COMMAND (0xFF) are used
by bus_interface.c but their defining header is not under src/; the values
come from the spec's bus address map (0xF0-0xF5, 0xFF), and the tests pin
0xF0 (DEVICE_STATUS) and 0xFF (SHARED_COMMAND). -/
def REG_DEVICE_STATUS : Nat := 0xF0

/-- Modelled from the spec: shared register 0xF1, IRQ cause low byte. -/
def REG_IRQ_CAUSE_LOW : Nat := 0xF1

/-- Modelled from the spec: shared register 0xF2, IRQ cause high byte. -/
def REG_IRQ_CAUSE_HIGH : Nat := 0xF2

/-- Modelled from the spec: shared register 0xF3, IRQ mask low byte. -/
def REG_IRQ_MASK_LOW : Nat := 0xF3

/-- Modelled from the spec: shared register 0xF4, IRQ mask high byte. -/
def REG_IRQ_MASK_HIGH : Nat := 0xF4

/-- Modelled from the spec: shared register 0xF5, global IRQ enable. -/
def REG_IRQ_ENABLE : Nat := 0xF5

/-- Modelled from the spec: shared register 0xFF, shared command port. -/
def REG_SHARED_COMMAND : Nat := 0xFF

/-- Modelled from the spec: MAX_WINDOWS is 8 (windows A-H; the decode keeps
bits 6-4 of the address, so window numbers are always 0-7). -/
def MAX_WINDOWS : Nat := 8

/-- Per-window transient dispatcher state (`window_state_t`, fields as used
by bus_interface.c): the selected slot and the selected config field. -/
structure BusWindow where
  active_index : Nat
  config_field_select : Nat
deriving Repr, DecidableEq

/-- Combined dispatcher-plus-engine state as seen from the 8-bit bus
(`g_window_state` array and the engine's `g_state`). -/
structure BusState where
  eng : EngineState
  win : Nat → BusWindow

/-- bus_interface_init: all window states to slot 0, field 0. -/
def bus_interface_init (st : BusState) : BusState :=
  { st with win := fun _ => ⟨0, 0⟩ }

/-- bus_interface_read: decode the 8-bit local address (bit 7 picks shared
space, bits 6-4 the window, bits 3-0 the register offset) and dispatch,
following bus_interface.c literally.  Returns the byte and the new state
(only a DATA_PORT read can change state). -/
def bus_interface_read (st : BusState) (local_addr : Nat) : Nat × BusState :=
  let window_num := (local_addr >>> 4) &&& 0x07
  let reg_offset := local_addr &&& 0x0F
  if local_addr &&& 0x80 ≠ 0 then
    if local_addr = REG_DEVICE_STATUS then (st.eng.status, st)
    else if local_addr = REG_IRQ_CAUSE_LOW then (st.eng.irq_cause &&& 0xFF, st)
    else if local_addr = REG_IRQ_CAUSE_HIGH then ((st.eng.irq_cause >>> 8) &&& 0xFF, st)
    else if local_addr = REG_IRQ_MASK_LOW then (st.eng.irq_mask &&& 0xFF, st)
    else if local_addr = REG_IRQ_MASK_HIGH then ((st.eng.irq_mask >>> 8) &&& 0xFF, st)
    else if local_addr = REG_IRQ_ENABLE then (st.eng.irq_enable, st)
    else (0, st)
  else
    if reg_offset = REG_OFFSET_DATA_PORT then
      let r := indexed_memory_read st.eng (st.win window_num).active_index
      (r.1, { st with eng := r.2 })
    else if reg_offset = REG_OFFSET_IDX_SELECT then ((st.win window_num).active_index, st)
    else if reg_offset = REG_OFFSET_CFG_DATA then
      (indexed_memory_get_config_field st.eng (st.win window_num).active_index
        (st.win window_num).config_field_select, st)
    else if reg_offset = REG_OFFSET_CFG_FIELD_SELECT then
      ((st.win window_num).config_field_select, st)
    else (0, st)

/-- Update one window of the dispatcher window table. -/
def updWin (f : Nat → BusWindow) (w : Nat) (x : BusWindow) : Nat → BusWindow :=
  fun i => if i = w then x else f i

/-- bus_interface_write: decode the 8-bit local address and dispatch,
following bus_interface.c literally (DEVICE_STATUS and reserved registers
ignore writes; IRQ cause writes are write-1-to-clear; mask writes splice
one byte into the 16-bit mask; 0xFF executes a shared command; window
offset 4 executes a window command on the selected slot). -/
def bus_interface_write (st : BusState) (local_addr data : Nat) : BusState :=
  let window_num := (local_addr >>> 4) &&& 0x07
  let reg_offset := local_addr &&& 0x0F
  if local_addr &&& 0x80 ≠ 0 then
    if local_addr = REG_DEVICE_STATUS then st
    else if local_addr = REG_IRQ_CAUSE_LOW then
      { st with eng := indexed_memory_write_irq_cause_low st.eng (data % 256) }
    else if local_addr = REG_IRQ_CAUSE_HIGH then
      { st with eng := indexed_memory_write_irq_cause_high st.eng (data % 256) }
    else if local_addr = REG_IRQ_MASK_LOW then
      { st with eng := indexed_memory_set_irq_mask st.eng ((st.eng.irq_mask &&& 0xFF00) ||| (data % 256)) }
    else if local_addr = REG_IRQ_MASK_HIGH then
      { st with eng := indexed_memory_set_irq_mask st.eng ((st.eng.irq_mask &&& 0x00FF) ||| ((data % 256) <<< 8)) }
    else if local_addr = REG_IRQ_ENABLE then
      { st with eng := indexed_memory_set_irq_enable st.eng (data % 256) }
    else if local_addr = REG_SHARED_COMMAND then
      { st with eng := indexed_memory_execute_shared_command st.eng (data % 256) }
    else st
  else
    if reg_offset = REG_OFFSET_IDX_SELECT then
      { st with win := updWin st.win window_num ({ st.win window_num with active_index := data % 256 }) }
    else if reg_offset = REG_OFFSET_DATA_PORT then
      { st with eng := indexed_memory_write st.eng (st.win window_num).active_index data }
    else if reg_offset = REG_OFFSET_CFG_FIELD_SELECT then
      { st with win := updWin st.win window_num ({ st.win window_num with config_field_select := data % 256 }) }
    else if reg_offset = REG_OFFSET_CFG_DATA then
      { st with eng := indexed_memory_set_config_field st.eng (st.win window_num).active_index (st.win window_num).config_field_select data }
    else if reg_offset = REG_OFFSET_COMMAND then
      { st with eng := indexed_memory_execute_window_command st.eng (st.win window_num).active_index (data % 256) }
    else st

/-- One externally invokable operation of the indexed-memory engine (the
public API of indexed_memory.c, including commands and IRQ registers). -/
inductive EngOp where
  | setAddress (idx addr : Nat)
  | setDefault (idx addr : Nat)
  | setLimit (idx addr : Nat)
  | setStep (idx v : Nat)
  | setFlags (idx v : Nat)
  | resetIdx (idx : Nat)
  | resetAllSlots
  | readByte (idx : Nat)
  | writeByte (idx v : Nat)
  | readByteNoStep (idx : Nat)
  | writeByteNoStep (idx v : Nat)
  | setCfgField (idx f v : Nat)
  | execCmd (c : Nat)
  | execWindowCmd (idx c : Nat)
  | execSharedCmd (c : Nat)
  | copyBlk (s d c : Nat)
  | wCauseLow (b : Nat)
  | wCauseHigh (b : Nat)
  | clearAllIrq
  | clearSpecific (c : Nat)
  | raiseIrq (c : Nat)
  | setMask (m : Nat)
  | setEnable (e : Nat)
  | setWinIdx (b : Bool) (i : Nat)
  | setCfgSel (b : Bool) (f : Nat)

/-- Apply one engine operation to the engine state. -/
def engStep (st : EngineState) : EngOp → EngineState
  | .setAddress i a => indexed_memory_set_index_address st i a
  | .setDefault i a => indexed_memory_set_index_default st i a
  | .setLimit i a => indexed_memory_set_index_limit st i a
  | .setStep i v => indexed_memory_set_index_step st i v
  | .setFlags i v => indexed_memory_set_index_flags st i v
  | .resetIdx i => indexed_memory_reset_index st i
  | .resetAllSlots => indexed_memory_reset_all st
  | .readByte i => (indexed_memory_read st i).2
  | .writeByte i v => indexed_memory_write st i v
  | .readByteNoStep i => (indexed_memory_read_no_step st i).2
  | .writeByteNoStep i v => indexed_memory_write_no_step st i v
  | .setCfgField i f v => indexed_memory_set_config_field st i f v
  | .execCmd c => indexed_memory_execute_command st c
  | .execWindowCmd i c => indexed_memory_execute_window_command st i c
  | .execSharedCmd c => indexed_memory_execute_shared_command st c
  | .copyBlk s d c => indexed_memory_copy_block st s d c
  | .wCauseLow b => indexed_memory_write_irq_cause_low st b
  | .wCauseHigh b => indexed_memory_write_irq_cause_high st b
  | .clearAllIrq => indexed_memory_clear_irq st
  | .clearSpecific c => indexed_memory_clear_specific_irq st c
  | .raiseIrq c => indexed_memory_set_irq st c
  | .setMask m => indexed_memory_set_irq_mask st m
  | .setEnable e => indexed_memory_set_irq_enable st e
  | .setWinIdx b i => indexed_memory_set_window_index st b i
  | .setCfgSel b f => indexed_memory_set_config_field_select st b f

/-- Engine state reached from initialization by a sequence of operations. -/
def engRun (busy : Bool) (ops : List EngOp) : EngineState :=
  ops.foldl engStep (indexed_memory_init busy)

/-- One operation of the standalone interrupt controller (irq.c). -/
inductive IrqOp where
  | raise (c : Nat)
  | ackLow (b : Nat)
  | ackHigh (b : Nat)
  | clearBits (c : Nat)
  | clearAll
  | setMask (m : Nat)
  | setEnable (e : Nat)

/-- Apply one interrupt-controller operation. -/
def irqStep (st : IrqState) : IrqOp → IrqState
  | .raise c => irq_set_bits st c
  | .ackLow b => irq_write_cause_low st b
  | .ackHigh b => irq_write_cause_high st b
  | .clearBits c => irq_clear_bits st c
  | .clearAll => irq_clear_all st
  | .setMask m => irq_set_mask st m
  | .setEnable e => irq_set_enable st e

/-- Interrupt-controller state reached from irq_init by a sequence of
operations. -/
def irqRun (ops : List IrqOp) : IrqState :=
  ops.foldl irqStep irq_init

/-- A nonzero natural number has a set bit. -/
lemma exists_testBit_of_ne_zero {x : Nat} (h : x ≠ 0) : ∃ i, x.testBit i = true :=
  Nat.ne_zero_implies_bit_true h

/-- Bitwise AND distributes over bitwise OR on the left argument. -/
lemma lor_land_distrib (a c m : Nat) : (a ||| c) &&& m = (a &&& m) ||| (c &&& m) := by
  apply Nat.eq_of_testBit_eq
  intro i
  simp [Nat.testBit_and, Nat.testBit_or, Bool.and_or_distrib_right]

/-- If an OR is zero, the left operand is zero. -/
lemma left_eq_zero_of_lor_eq_zero {a b : Nat} (h : a ||| b = 0) : a = 0 := by
  apply Nat.eq_of_testBit_eq
  intro i
  have h2 := congrArg (fun x => Nat.testBit x i) h
  simp [Nat.testBit_or] at h2
  simp [h2.1]

/-- Raising cause bits cannot turn a pending unmasked cause into none. -/
lemma land_ne_zero_of_lor {a c m : Nat} (h : a &&& m ≠ 0) : (a ||| c) &&& m ≠ 0 := by
  intro hz
  rw [lor_land_distrib] at hz
  exact h (left_eq_zero_of_lor_eq_zero hz)

/-- Clearing cause bits cannot create a pending unmasked cause. -/
lemma land_land_ne_zero {a x m : Nat} (h : a &&& x &&& m ≠ 0) : a &&& m ≠ 0 := by
  intro hz
  apply h
  rw [Nat.land_assoc, Nat.land_comm x m, ← Nat.land_assoc, hz]
  simp

/-- Setting the IRQ-pending status bit sets status bit 1. -/
lemma testBit_one_or_pending (s : Nat) : (s ||| STATUS_IRQ_PENDING).testBit 1 = true := by
  rw [STATUS_IRQ_PENDING, Nat.testBit_or, show (2:Nat).testBit 1 = true from by decide,
    Bool.or_true]

/-- Clearing the IRQ-pending status bit clears status bit 1. -/
lemma testBit_one_and_clear_pending (s : Nat) :
    (s &&& (0xFF ^^^ STATUS_IRQ_PENDING)).testBit 1 = false := by
  rw [STATUS_IRQ_PENDING, show (0xFF ^^^ (2:Nat)) = 0xFD from by decide, Nat.testBit_and,
    show (0xFD:Nat).testBit 1 = false from by decide, Bool.and_false]

/-- ORing a constant with bit 1 clear leaves status bit 1 unchanged. -/
lemma testBit_one_or_const (s c : Nat) (hc : c.testBit 1 = false) :
    (s ||| c).testBit 1 = s.testBit 1 := by
  rw [Nat.testBit_or, hc, Bool.or_false]

/-- ANDing with a constant with bit 1 set leaves status bit 1 unchanged. -/
lemma testBit_one_and_const (s c : Nat) (hc : c.testBit 1 = true) :
    (s &&& c).testBit 1 = s.testBit 1 := by
  rw [Nat.testBit_and, hc, Bool.and_true]

/-- Setting and then clearing the DMA-active bit leaves status bit 1 alone. -/
lemma testBit_one_dma_roundtrip (s : Nat) :
    ((s ||| STATUS_DMA_ACTIVE) &&& (0xFF ^^^ STATUS_DMA_ACTIVE)).testBit 1 = s.testBit 1 := by
  rw [testBit_one_and_const _ _ (by decide), testBit_one_or_const _ _ (by decide)]

/-- Invariant of the engine: the STATUS_IRQ_PENDING bit (status bit 1) is
set exactly when interrupts are globally enabled and an unmasked cause bit
is pending. -/
def EngPendingOk (st : EngineState) : Prop :=
  st.status.testBit 1 = true ↔ (st.irq_enable ≠ 0 ∧ st.irq_cause &&& st.irq_mask ≠ 0)

/-- Invariant of the standalone IRQ module: the physical line is asserted
exactly when interrupts are globally enabled and an unmasked cause bit is
pending. -/
def IrqLineOk (st : IrqState) : Prop :=
  st.line_asserted = true ↔ (st.irq_enable ≠ 0 ∧ st.irq_cause &&& st.irq_mask ≠ 0)

/-- The engine invariant only looks at status bit 1, enable, cause and mask. -/
lemma pendingOk_same (st1 st2 : EngineState) (h : EngPendingOk st1)
    (hs : st2.status.testBit 1 = st1.status.testBit 1) (he : st2.irq_enable = st1.irq_enable)
    (hc : st2.irq_cause = st1.irq_cause) (hm : st2.irq_mask = st1.irq_mask) :
    EngPendingOk st2 := by
  rw [EngPendingOk, hs, he, hc, hm]
  exact h

/-- Setting STATUS_MEMORY_ERROR does not disturb the pending invariant. -/
lemma pendingOk_or_mem_error (st : EngineState) (h : EngPendingOk st) :
    EngPendingOk { st with status := st.status ||| STATUS_MEMORY_ERROR } := by
  rw [EngPendingOk] at h ⊢
  show (st.status ||| STATUS_MEMORY_ERROR).testBit 1 = true ↔ _
  rw [testBit_one_or_const _ _ (by decide)]
  exact h

/-- indexed_memory_set_irq preserves the pending invariant. -/
lemma pendingOk_set_irq (st : EngineState) (c : Nat) (h : EngPendingOk st) :
    EngPendingOk (indexed_memory_set_irq st c) := by
  rw [EngPendingOk] at h ⊢
  simp only [indexed_memory_set_irq]
  split_ifs with hcond
  · rw [testBit_one_or_pending]
    exact iff_of_true rfl hcond
  · constructor
    · intro hb
      have hold := h.mp hb
      exact absurd ⟨hold.1, land_ne_zero_of_lor hold.2⟩ hcond
    · intro hp
      exact absurd hp hcond

/-- clearCauseBits preserves the pending invariant. -/
lemma pendingOk_clear_form (st : EngineState) (x : Nat) (h : EngPendingOk st) :
    EngPendingOk (clearCauseBits st x) := by
  rw [EngPendingOk] at h ⊢
  simp only [clearCauseBits]
  split_ifs with hz
  · rw [testBit_one_and_clear_pending]
    exact iff_of_false (by simp) (by simp [hz])
  · have hold : st.irq_cause &&& st.irq_mask ≠ 0 := land_land_ne_zero hz
    rw [h]
    constructor
    · intro hp
      exact ⟨hp.1, hz⟩
    · intro hp
      exact ⟨hp.1, hold⟩

/-- indexed_memory_write_irq_cause_low preserves the pending invariant. -/
lemma pendingOk_wlow (st : EngineState) (b : Nat) (h : EngPendingOk st) :
    EngPendingOk (indexed_memory_write_irq_cause_low st b) :=
  pendingOk_clear_form st _ h

/-- indexed_memory_write_irq_cause_high preserves the pending invariant. -/
lemma pendingOk_whigh (st : EngineState) (b : Nat) (h : EngPendingOk st) :
    EngPendingOk (indexed_memory_write_irq_cause_high st b) :=
  pendingOk_clear_form st _ h

/-- indexed_memory_clear_specific_irq preserves the pending invariant. -/
lemma pendingOk_clear_specific (st : EngineState) (c : Nat) (h : EngPendingOk st) :
    EngPendingOk (indexed_memory_clear_specific_irq st c) :=
  pendingOk_clear_form st _ h

/-- indexed_memory_clear_irq preserves the pending invariant. -/
lemma pendingOk_clear_irq (st : EngineState) :
    EngPendingOk (indexed_memory_clear_irq st) := by
  rw [EngPendingOk]
  show (st.status &&& (0xFF ^^^ STATUS_IRQ_PENDING)).testBit 1 = true ↔
    (st.irq_enable ≠ 0 ∧ (0 : Nat) &&& st.irq_mask ≠ 0)
  rw [testBit_one_and_clear_pending]
  exact iff_of_false (by simp) (by simp)

/-- indexed_memory_set_irq_mask preserves the pending invariant. -/
lemma pendingOk_set_mask (st : EngineState) (m : Nat) (h : EngPendingOk st) :
    EngPendingOk (indexed_memory_set_irq_mask st m) := by
  rw [EngPendingOk] at h ⊢
  simp only [indexed_memory_set_irq_mask]
  split_ifs with hz he
  · rw [testBit_one_and_clear_pending]
    exact iff_of_false (by simp) (by simp [hz])
  · rw [testBit_one_or_pending]
    exact iff_of_true rfl ⟨he, hz⟩
  · rw [h]
    constructor
    · intro hp
      exact absurd hp.1 he
    · intro hp
      exact absurd hp.1 he

/-- indexed_memory_set_irq_enable preserves the pending invariant. -/
lemma pendingOk_set_enable (st : EngineState) (v : Nat) (h : EngPendingOk st) :
    EngPendingOk (indexed_memory_set_irq_enable st v) := by
  rw [EngPendingOk] at h ⊢
  simp only [indexed_memory_set_irq_enable]
  split_ifs with hv hz <;> dsimp only
  · rw [testBit_one_or_pending]
    exact iff_of_true rfl ⟨one_ne_zero, hz⟩
  · rw [h]
    exact iff_of_false (fun hp => hz hp.2) (fun hp => hz hp.2)
  · rw [testBit_one_and_clear_pending]
    exact iff_of_false (by simp) (by simp)

/-- The factory state has no cause pending (its irq_cause field is 0). -/
lemma init_irq_cause (b : Bool) : (indexed_memory_init b).irq_cause = 0 := by
  cases b <;> rfl

/-- The factory state's status register is exactly STATUS_SYSTEM_READY. -/
lemma init_status (b : Bool) : (indexed_memory_init b).status = 128 := by
  cases b <;> rfl

/-- The factory state's IRQ mask enables all sources. -/
lemma init_irq_mask (b : Bool) : (indexed_memory_init b).irq_mask = 0xFFFF := by
  cases b <;> rfl

/-- The factory state has global interrupts enabled. -/
lemma init_irq_enable (b : Bool) : (indexed_memory_init b).irq_enable = 1 := by
  cases b <;> rfl

/-- The factory state satisfies the pending invariant. -/
lemma pendingOk_init (b : Bool) : EngPendingOk (indexed_memory_init b) := by
  rw [EngPendingOk, init_status, init_irq_cause]
  exact iff_of_false (by decide) (by simp)

/-- indexed_memory_read preserves the pending invariant. -/
lemma pendingOk_read (st : EngineState) (i : Nat) (h : EngPendingOk st) :
    EngPendingOk (indexed_memory_read st i).2 := by
  simp only [indexed_memory_read]
  split_ifs <;> (try dsimp only) <;>
    first
      | exact pendingOk_set_irq _ _ (pendingOk_or_mem_error st h)
      | exact pendingOk_same st _ h rfl rfl rfl rfl
      | exact h

/-- indexed_memory_write preserves the pending invariant. -/
lemma pendingOk_write (st : EngineState) (i v : Nat) (h : EngPendingOk st) :
    EngPendingOk (indexed_memory_write st i v) := by
  simp only [indexed_memory_write]
  split_ifs <;> (try dsimp only) <;>
    first
      | exact pendingOk_set_irq _ _ (pendingOk_or_mem_error st h)
      | exact pendingOk_same st _ h rfl rfl rfl rfl
      | exact h

/-- indexed_memory_read_no_step preserves the pending invariant. -/
lemma pendingOk_read_no_step (st : EngineState) (i : Nat) (h : EngPendingOk st) :
    EngPendingOk (indexed_memory_read_no_step st i).2 := by
  simp only [indexed_memory_read_no_step]
  split_ifs <;> (try dsimp only) <;>
    first
      | exact pendingOk_set_irq _ _ (pendingOk_or_mem_error st h)
      | exact h

/-- indexed_memory_write_no_step preserves the pending invariant. -/
lemma pendingOk_write_no_step (st : EngineState) (i v : Nat) (h : EngPendingOk st) :
    EngPendingOk (indexed_memory_write_no_step st i v) := by
  simp only [indexed_memory_write_no_step]
  split_ifs <;> (try dsimp only) <;>
    first
      | exact pendingOk_set_irq _ _ (pendingOk_or_mem_error st h)
      | exact pendingOk_same st _ h rfl rfl rfl rfl

/-- indexed_memory_set_config_field preserves the pending invariant. -/
lemma pendingOk_set_cfg (st : EngineState) (i f v : Nat) (h : EngPendingOk st) :
    EngPendingOk (indexed_memory_set_config_field st i f v) := by
  rcases f with _|_|_|_|_|_|_|_|_|_|_|_|_|_|_|f <;>
    exact pendingOk_same st _ h rfl rfl rfl rfl

/-- indexed_memory_copy_block preserves the pending invariant. -/
lemma pendingOk_copy_block (st : EngineState) (a b c : Nat) (h : EngPendingOk st) :
    EngPendingOk (indexed_memory_copy_block st a b c) := by
  simp only [indexed_memory_copy_block]
  split_ifs <;> (try dsimp only) <;>
    first
      | exact h
      | exact pendingOk_set_irq _ _ (pendingOk_or_mem_error st h)
      | exact pendingOk_set_irq _ _ h
      | exact pendingOk_set_irq _ _
          (pendingOk_same st _ h (testBit_one_dma_roundtrip st.status) rfl rfl rfl)

/-- indexed_memory_execute_command preserves the pending invariant. -/
lemma pendingOk_exec_cmd (st : EngineState) (c : Nat) (h : EngPendingOk st) :
    EngPendingOk (indexed_memory_execute_command st c) := by
  rcases c with _|_|_|_|_|_|_|_|_|_|_|_|_|_|_|_|_|c
  · exact h
  · exact pendingOk_same st _ h rfl rfl rfl rfl
  · exact pendingOk_same st _ h rfl rfl rfl rfl
  · exact h
  · exact h
  · exact pendingOk_clear_irq st
  · exact h
  · exact pendingOk_copy_block st _ _ _ h
  · exact pendingOk_same st _ h rfl rfl rfl rfl
  · exact pendingOk_same st _ h rfl rfl rfl rfl
  · exact h
  · exact h
  · exact h
  · exact h
  · exact h
  · exact h
  · exact pendingOk_init st.dma_busy
  · exact h

/-- indexed_memory_execute_window_command preserves the pending invariant. -/
lemma pendingOk_exec_win (st : EngineState) (i c : Nat) (h : EngPendingOk st) :
    EngPendingOk (indexed_memory_execute_window_command st i c) := by
  rcases c with _|_|_|_|c <;>
    first
      | exact h
      | exact pendingOk_same st _ h rfl rfl rfl rfl

/-- indexed_memory_execute_shared_command preserves the pending invariant. -/
lemma pendingOk_exec_shared (st : EngineState) (c : Nat) (h : EngPendingOk st) :
    EngPendingOk (indexed_memory_execute_shared_command st c) := by
  rcases c with _|_|_|_|_|_|c
  · exact h
  · exact pendingOk_same st _ h rfl rfl rfl rfl
  · exact pendingOk_clear_irq _
  · exact pendingOk_clear_irq st
  · exact pendingOk_copy_block st _ _ _ h
  · exact pendingOk_clear_irq _
  · exact h

/-- indexed_memory_set_window_index preserves the pending invariant. -/
lemma pendingOk_set_win (st : EngineState) (b : Bool) (i : Nat) (h : EngPendingOk st) :
    EngPendingOk (indexed_memory_set_window_index st b i) := by
  simp only [indexed_memory_set_window_index]
  split_ifs <;> exact pendingOk_same st _ h rfl rfl rfl rfl

/-- indexed_memory_set_config_field_select preserves the pending invariant. -/
lemma pendingOk_set_sel (st : EngineState) (b : Bool) (f : Nat) (h : EngPendingOk st) :
    EngPendingOk (indexed_memory_set_config_field_select st b f) := by
  simp only [indexed_memory_set_config_field_select]
  split_ifs <;> exact pendingOk_same st _ h rfl rfl rfl rfl

/-- Every engine operation preserves the pending invariant. -/
lemma pendingOk_engStep (st : EngineState) (op : EngOp) (h : EngPendingOk st) :
    EngPendingOk (engStep st op) := by
  cases op with
  | setAddress i a => exact pendingOk_same st _ h rfl rfl rfl rfl
  | setDefault i a => exact pendingOk_same st _ h rfl rfl rfl rfl
  | setLimit i a => exact pendingOk_same st _ h rfl rfl rfl rfl
  | setStep i v => exact pendingOk_same st _ h rfl rfl rfl rfl
  | setFlags i v => exact pendingOk_same st _ h rfl rfl rfl rfl
  | resetIdx i => exact pendingOk_same st _ h rfl rfl rfl rfl
  | resetAllSlots => exact pendingOk_same st _ h rfl rfl rfl rfl
  | readByte i => exact pendingOk_read st _ h
  | writeByte i v => exact pendingOk_write st _ _ h
  | readByteNoStep i => exact pendingOk_read_no_step st _ h
  | writeByteNoStep i v => exact pendingOk_write_no_step st _ _ h
  | setCfgField i f v => exact pendingOk_set_cfg st _ _ _ h
  | execCmd c => exact pendingOk_exec_cmd st _ h
  | execWindowCmd i c => exact pendingOk_exec_win st _ _ h
  | execSharedCmd c => exact pendingOk_exec_shared st _ h
  | copyBlk a b c => exact pendingOk_copy_block st _ _ _ h
  | wCauseLow b => exact pendingOk_wlow st _ h
  | wCauseHigh b => exact pendingOk_whigh st _ h
  | clearAllIrq => exact pendingOk_clear_irq st
  | clearSpecific c => exact pendingOk_clear_specific st _ h
  | raiseIrq c => exact pendingOk_set_irq st _ h
  | setMask m => exact pendingOk_set_mask st _ h
  | setEnable e => exact pendingOk_set_enable st _ h
  | setWinIdx b i => exact pendingOk_set_win st _ _ h
  | setCfgSel b f => exact pendingOk_set_sel st _ _ h

/-- The pending invariant holds at every state reached from initialization. -/
lemma pendingOk_engRun (b : Bool) (ops : List EngOp) : EngPendingOk (engRun b ops) := by
  rw [engRun]
  have hgen : ∀ (l : List EngOp) (st : EngineState), EngPendingOk st →
      EngPendingOk (l.foldl engStep st) := by
    intro l
    induction l with
    | nil => intro st h; exact h
    | cons op rest ih =>
        intro st h
        exact ih _ (pendingOk_engStep st op h)
  exact hgen ops _ (pendingOk_init b)

/-- The line invariant only looks at the line, enable, cause and mask. -/
lemma lineOk_same (st1 st2 : IrqState) (h : IrqLineOk st1)
    (hl : st2.line_asserted = st1.line_asserted) (he : st2.irq_enable = st1.irq_enable)
    (hc : st2.irq_cause = st1.irq_cause) (hm : st2.irq_mask = st1.irq_mask) :
    IrqLineOk st2 := by
  rw [IrqLineOk, hl, he, hc, hm]
  exact h

/-- irq_set_bits preserves the line invariant. -/
lemma lineOk_set_bits (st : IrqState) (c : Nat) (h : IrqLineOk st) :
    IrqLineOk (irq_set_bits st c) := by
  rw [IrqLineOk] at h ⊢
  simp only [irq_set_bits]
  split_ifs with hcond
  · exact iff_of_true rfl hcond
  · constructor
    · intro hb
      have hold := h.mp hb
      exact absurd ⟨hold.1, land_ne_zero_of_lor hold.2⟩ hcond
    · intro hp
      exact absurd hp hcond

/-- irqClearShape preserves the line invariant. -/
lemma lineOk_clear_shape (st : IrqState) (x : Nat) (h : IrqLineOk st) :
    IrqLineOk (irqClearShape st x) := by
  rw [IrqLineOk] at h ⊢
  simp only [irqClearShape]
  split_ifs with hz
  · exact iff_of_false (by simp) (by simp [hz])
  · have hold : st.irq_cause &&& st.irq_mask ≠ 0 := land_land_ne_zero hz
    rw [h]
    constructor
    · intro hp
      exact ⟨hp.1, hz⟩
    · intro hp
      exact ⟨hp.1, hold⟩

/-- irq_clear_all preserves the line invariant. -/
lemma lineOk_clear_all (st : IrqState) : IrqLineOk (irq_clear_all st) := by
  rw [IrqLineOk]
  show false = true ↔ (st.irq_enable ≠ 0 ∧ (0 : Nat) &&& st.irq_mask ≠ 0)
  exact iff_of_false (by simp) (by simp)

/-- irq_set_mask preserves the line invariant. -/
lemma lineOk_set_mask (st : IrqState) (m : Nat) (h : IrqLineOk st) :
    IrqLineOk (irq_set_mask st m) := by
  rw [IrqLineOk] at h ⊢
  simp only [irq_set_mask]
  split_ifs with hz he
  · exact iff_of_false (by simp) (by simp [hz])
  · exact iff_of_true rfl ⟨he, hz⟩
  · rw [h]
    constructor
    · intro hp
      exact absurd hp.1 he
    · intro hp
      exact absurd hp.1 he

/-- irq_set_enable preserves the line invariant. -/
lemma lineOk_set_enable (st : IrqState) (v : Nat) (h : IrqLineOk st) :
    IrqLineOk (irq_set_enable st v) := by
  rw [IrqLineOk] at h ⊢
  simp only [irq_set_enable]
  split_ifs with hv hz <;> dsimp only
  · exact iff_of_true rfl ⟨one_ne_zero, hz⟩
  · rw [h]
    exact iff_of_false (fun hp => hz hp.2) (fun hp => hz hp.2)
  · exact iff_of_false (by simp) (by simp)

/-- The initial IRQ state satisfies the line invariant. -/
lemma lineOk_init : IrqLineOk irq_init := by
  rw [IrqLineOk]
  exact iff_of_false (by simp [irq_init]) (by simp [irq_init])

/-- Every IRQ-module operation preserves the line invariant. -/
lemma lineOk_irqStep (st : IrqState) (op : IrqOp) (h : IrqLineOk st) :
    IrqLineOk (irqStep st op) := by
  cases op with
  | raise c => exact lineOk_set_bits st _ h
  | ackLow b => exact lineOk_clear_shape st _ h
  | ackHigh b => exact lineOk_clear_shape st _ h
  | clearBits c => exact lineOk_clear_shape st _ h
  | clearAll => exact lineOk_clear_all st
  | setMask m => exact lineOk_set_mask st _ h
  | setEnable e => exact lineOk_set_enable st _ h

/-- The line invariant holds at every state reached from irq_init. -/
lemma lineOk_irqRun (ops : List IrqOp) : IrqLineOk (irqRun ops) := by
  rw [irqRun]
  have hgen : ∀ (l : List IrqOp) (st : IrqState), IrqLineOk st →
      IrqLineOk (l.foldl irqStep st) := by
    intro l
    induction l with
    | nil => intro st h; exact h
    | cons op rest ih =>
        intro st h
        exact ih _ (lineOk_irqStep st op h)
  exact hgen ops _ lineOk_init

/-- C2: at every reachable state of the interrupt machinery (initialization
followed by any sequence of raise, acknowledge-low/high write-1-to-clear,
clear-all, set-mask and set-global-enable operations, and for the engine any
sequence of its public operations), the externally observable IRQ signal
equals `global_enable and (cause and mask) not zero`: the irq.c line, the
derived irq_is_pending, and the engine's STATUS_IRQ_PENDING status bit
(status bit 1) all report exactly that predicate. -/
theorem C2_irq_pending_invariant :
    (∀ ops : List IrqOp,
      ((irqRun ops).line_asserted = true ↔
        ((irqRun ops).irq_enable ≠ 0 ∧ (irqRun ops).irq_cause &&& (irqRun ops).irq_mask ≠ 0)) ∧
      (irq_is_pending (irqRun ops) = true ↔
        ((irqRun ops).irq_enable ≠ 0 ∧ (irqRun ops).irq_cause &&& (irqRun ops).irq_mask ≠ 0))) ∧
    (∀ (b : Bool) (ops : List EngOp),
      (engRun b ops).status.testBit 1 = true ↔
        ((engRun b ops).irq_enable ≠ 0 ∧ (engRun b ops).irq_cause &&& (engRun b ops).irq_mask ≠ 0)) := by
  refine ⟨fun ops => ⟨lineOk_irqRun ops, ?_⟩, fun b ops => pendingOk_engRun b ops⟩
  simp [irq_is_pending]

/-- Replacing a slot by itself leaves the slot table unchanged. -/
lemma updSlot_self (f : Nat → IndexSlot) (s : Nat) : updSlot f s (f s) = f := by
  funext i
  rw [updSlot]
  split_ifs with h
  · rw [h]
  · rfl

/-- C1 claim-side stepping rule, written from the claim's own sentence: if
AUTO_STEP is clear the current address is unchanged; otherwise it is
advanced by step (added when DIRECTION=forward, subtracted when
DIRECTION=backward, in 32-bit unsigned machine arithmetic); if
WRAP_ON_LIMIT is also set and the stepped address crosses limit_address
(stepped ≥ limit going forward, stepped < limit going backward), the
current address becomes default_address instead of the stepped value. -/
def specStepAddr (sl : IndexSlot) : Nat :=
  if sl.flags &&& FLAG_AUTO_STEP = 0 then sl.current_addr
  else
    if sl.flags &&& FLAG_DIRECTION = 0 then
      let stepped := (sl.current_addr + sl.step) % 4294967296
      if sl.flags &&& FLAG_WRAP_ON_LIMIT ≠ 0 ∧ sl.limit_addr ≤ stepped
      then sl.default_addr else stepped
    else
      let stepped := (sl.current_addr + 4294967296 - sl.step) % 4294967296
      if sl.flags &&& FLAG_WRAP_ON_LIMIT ≠ 0 ∧ stepped < sl.limit_addr
      then sl.default_addr else stepped

/-- C1: for every slot whose current address is within backing-store bounds,
read returns the byte stored at the current address and write stores its
byte there, and both then update the slot's current address exactly by the
auto-step/wrap rule specStepAddr (unchanged when AUTO_STEP is clear); no
other slot and no other engine field changes. -/
theorem C1_read_write_autostep (st : EngineState) (s b : Nat)
    (hin : (st.indexes s).current_addr < MIA_MEMORY_SIZE) (hb : b < 256) :
    (indexed_memory_read st s).1 = st.mem ((st.indexes s).current_addr) ∧
    (indexed_memory_read st s).2 =
      { st with indexes := updSlot st.indexes s ({ st.indexes s with current_addr := specStepAddr (st.indexes s) }) } ∧
    indexed_memory_write st s b =
      { st with
        mem := fun a => if a = (st.indexes s).current_addr then b else st.mem a,
        indexes := updSlot st.indexes s ({ st.indexes s with current_addr := specStepAddr (st.indexes s) }) } := by
  have hv : ¬ MIA_MEMORY_SIZE ≤ (st.indexes s).current_addr := not_le.mpr hin
  have hmem : (fun a => if a = (st.indexes s).current_addr then b % 256 else st.mem a)
      = (fun a => if a = (st.indexes s).current_addr then b else st.mem a) := by
    funext a
    rw [Nat.mod_eq_of_lt hb]
  have hslot : ∀ sl : IndexSlot,
      (if sl.flags &&& FLAG_AUTO_STEP ≠ 0 then
        (if sl.flags &&& FLAG_DIRECTION ≠ 0 then
          (if sl.flags &&& FLAG_WRAP_ON_LIMIT ≠ 0 ∧
              (sl.current_addr + 4294967296 - sl.step) % 4294967296 < sl.limit_addr
           then sl.default_addr
           else (sl.current_addr + 4294967296 - sl.step) % 4294967296)
         else
          (if sl.flags &&& FLAG_WRAP_ON_LIMIT ≠ 0 ∧
              sl.limit_addr ≤ (sl.current_addr + sl.step) % 4294967296
           then sl.default_addr
           else (sl.current_addr + sl.step) % 4294967296))
       else sl.current_addr) = specStepAddr sl := by
    intro sl
    rw [specStepAddr]
    by_cases h1 : sl.flags &&& FLAG_AUTO_STEP = 0
    · rw [if_pos h1, if_neg (by simp [h1])]
    · rw [if_neg h1, if_pos h1]
      by_cases h2 : sl.flags &&& FLAG_DIRECTION = 0
      · rw [if_pos h2, if_neg (by simp [h2])]
      · rw [if_neg h2, if_pos (by simp [h2])]
  refine ⟨?_, ?_, ?_⟩
  · simp only [indexed_memory_read]
    rw [if_neg hv]
    split_ifs <;> rfl
  · simp only [indexed_memory_read]
    rw [if_neg hv]
    by_cases h1 : (st.indexes s).flags &&& FLAG_AUTO_STEP = 0
    · rw [if_neg (by simp [h1])]
      show st = _
      rw [← hslot (st.indexes s)]
      rw [if_neg (by simp [h1])]
      show st = { st with indexes := updSlot st.indexes s (st.indexes s) }
      rw [updSlot_self]
    · rw [if_pos h1]
      rw [← hslot (st.indexes s)]
      rw [if_pos h1]
  · simp only [indexed_memory_write]
    rw [if_neg hv]
    by_cases h1 : (st.indexes s).flags &&& FLAG_AUTO_STEP = 0
    · rw [if_neg (by simp [h1])]
      rw [← hslot (st.indexes s)]
      rw [if_neg (by simp [h1])]
      show { st with mem := fun a => if a = (st.indexes s).current_addr then b % 256 else st.mem a } =
        { st with
          mem := fun a => if a = (st.indexes s).current_addr then b else st.mem a,
          indexes := updSlot st.indexes s (st.indexes s) }
      rw [updSlot_self, hmem]
    · rw [if_pos h1]
      rw [← hslot (st.indexes s)]
      rw [if_pos h1]
      rw [hmem]

/-- A small concrete engine state used by the witnesses: slot 7 is a
forward auto-stepping slot at address 0x10, every cell of the backing
store holds 0xAB. -/
def witState : EngineState :=
  { indexes := fun i => if i = 7 then ⟨0x10, 0x00, 0x20, 2, 1⟩ else zeroSlot
    dma_config := ⟨0, 0, 0⟩
    status := 0x80
    irq_cause := 0
    irq_mask := 0xFFFF
    irq_enable := 1
    window_a_idx := 0
    window_b_idx := 0
    cfg_field_a := 0
    cfg_field_b := 0
    mem := fun _ => 0xAB
    dma_busy := false }

/-- Witness for C1 at slot 7 of witState with data byte 0xCD. -/
theorem C1_read_write_autostep_witness :
    (witState.indexes 7).current_addr < MIA_MEMORY_SIZE ∧ (0xCD : Nat) < 256 ∧
    ((indexed_memory_read witState 7).1 = witState.mem ((witState.indexes 7).current_addr) ∧
     (indexed_memory_read witState 7).2 =
       { witState with indexes := updSlot witState.indexes 7 ({ witState.indexes 7 with current_addr := specStepAddr (witState.indexes 7) }) } ∧
     indexed_memory_write witState 7 0xCD =
       { witState with
         mem := fun a => if a = (witState.indexes 7).current_addr then 0xCD else witState.mem a,
         indexes := updSlot witState.indexes 7 ({ witState.indexes 7 with current_addr := specStepAddr (witState.indexes 7) }) }) :=
  ⟨by decide, by decide, C1_read_write_autostep witState 7 0xCD (by decide) (by decide)⟩

/-- Bits at or above the width bound of a bounded value are clear. -/
lemma testBit_false_of_bound {x n i : Nat} (h : x < 2 ^ n) (hn : n ≤ i) :
    x.testBit i = false :=
  Nat.testBit_eq_false_of_lt (lt_of_lt_of_le h (Nat.pow_le_pow_right (by norm_num) hn))

/-- Bit view of ANDing a 16-bit cause with the complement of a clear mask. -/
lemma testBit_clear_keep (cause k i : Nat) :
    (cause &&& (0xFFFF ^^^ k)).testBit i
      = (cause.testBit i && ((0xFFFF : Nat).testBit i ^^ k.testBit i)) := by
  simp [Nat.testBit_and, Nat.testBit_xor]

/-- The low 16 one-bits of the keep-mask complement. -/
lemma testBit_ffff (i : Nat) (h : i < 16) : (0xFFFF : Nat).testBit i = true := by
  rw [show (0xFFFF : Nat) = 2 ^ 16 - 1 from rfl, Nat.testBit_two_pow_sub_one]
  simp [h]

/-- A concrete interrupt configuration with cause bits 0 and 2 set, used by
the write-1-to-clear claim. -/
def c9state : EngineState := { witState with irq_cause := 5 }

/-- The corresponding concrete state of the standalone IRQ module. -/
def c9irq : IrqState := ⟨5, 0xFFFF, 1, true⟩

/-- C9: writing clear_bits to IRQ_CAUSE_LOW clears exactly the low-byte
cause bits where clear_bits has a 1 and leaves bits 8 and up untouched;
IRQ_CAUSE_HIGH does the same for the high byte leaving the low byte
untouched — for both the engine's registers and the standalone IRQ module;
in particular, from cause bits 0 and 2 set, writing 0x04 clears only bit 2
and leaves bit 0 set (cause 5 becomes 1). -/
theorem C9_write_one_to_clear (est : EngineState) (ist : IrqState) (clear : Nat)
    (hest : est.irq_cause < 65536) (hist : ist.irq_cause < 65536) (hc : clear < 256) :
    (∀ i, i < 8 → (indexed_memory_write_irq_cause_low est clear).irq_cause.testBit i
        = (est.irq_cause.testBit i && !(clear.testBit i))) ∧
    (∀ i, 8 ≤ i → (indexed_memory_write_irq_cause_low est clear).irq_cause.testBit i
        = est.irq_cause.testBit i) ∧
    (∀ i, i < 8 → (indexed_memory_write_irq_cause_high est clear).irq_cause.testBit i
        = est.irq_cause.testBit i) ∧
    (∀ i, 8 ≤ i → (indexed_memory_write_irq_cause_high est clear).irq_cause.testBit i
        = (est.irq_cause.testBit i && !(clear.testBit (i - 8)))) ∧
    (∀ i, i < 8 → (irq_write_cause_low ist clear).irq_cause.testBit i
        = (ist.irq_cause.testBit i && !(clear.testBit i))) ∧
    (∀ i, 8 ≤ i → (irq_write_cause_low ist clear).irq_cause.testBit i
        = ist.irq_cause.testBit i) ∧
    (∀ i, i < 8 → (irq_write_cause_high ist clear).irq_cause.testBit i
        = ist.irq_cause.testBit i) ∧
    (∀ i, 8 ≤ i → (irq_write_cause_high ist clear).irq_cause.testBit i
        = (ist.irq_cause.testBit i && !(clear.testBit (i - 8)))) ∧
    (indexed_memory_write_irq_cause_low c9state 0x04).irq_cause = 1 ∧
    (irq_write_cause_low c9irq 0x04).irq_cause = 1 := by
  have hmod : clear % 256 = clear := Nat.mod_eq_of_lt hc
  have hlow : ∀ (cause : Nat), cause < 65536 →
      (∀ i, i < 8 → (cause &&& (0xFFFF ^^^ clear % 256)).testBit i
          = (cause.testBit i && !(clear.testBit i))) ∧
      (∀ i, 8 ≤ i → (cause &&& (0xFFFF ^^^ clear % 256)).testBit i
          = cause.testBit i) := by
    intro cause hcause
    rw [hmod]
    constructor
    · intro i hi
      rw [testBit_clear_keep, testBit_ffff i (by omega), Bool.true_xor]
    · intro i hi
      by_cases h16 : i < 16
      · rw [testBit_clear_keep, testBit_ffff i h16, Bool.true_xor,
          testBit_false_of_bound hc hi]
        simp
      · rw [testBit_clear_keep,
          testBit_false_of_bound (show (0xFFFF : Nat) < 2 ^ 16 from by norm_num) (by omega),
          testBit_false_of_bound hcause (show 16 ≤ i from by omega)]
        simp
  have hhigh : ∀ (cause : Nat), cause < 65536 →
      (∀ i, i < 8 → (cause &&& (0xFFFF ^^^ (clear % 256) <<< 8)).testBit i
          = cause.testBit i) ∧
      (∀ i, 8 ≤ i → (cause &&& (0xFFFF ^^^ (clear % 256) <<< 8)).testBit i
          = (cause.testBit i && !(clear.testBit (i - 8)))) := by
    intro cause hcause
    rw [hmod]
    have hshift : ∀ i : Nat, (clear <<< 8).testBit i = (decide (8 ≤ i) && clear.testBit (i - 8)) := by
      intro i
      simp [Nat.testBit_shiftLeft]
    constructor
    · intro i hi
      rw [testBit_clear_keep, testBit_ffff i (by omega), Bool.true_xor, hshift]
      simp [Nat.not_le.mpr hi]
    · intro i hi
      by_cases h16 : i < 16
      · rw [testBit_clear_keep, testBit_ffff i h16, Bool.true_xor, hshift]
        simp [hi]
      · rw [testBit_clear_keep,
          testBit_false_of_bound (show (0xFFFF : Nat) < 2 ^ 16 from by norm_num) (by omega),
          testBit_false_of_bound hcause (show 16 ≤ i from by omega), hshift,
          testBit_false_of_bound hc (show 8 ≤ i - 8 from by omega)]
        simp
  refine ⟨(hlow est.irq_cause hest).1, (hlow est.irq_cause hest).2,
          (hhigh est.irq_cause hest).1, (hhigh est.irq_cause hest).2,
          (hlow ist.irq_cause hist).1, (hlow ist.irq_cause hist).2,
          (hhigh ist.irq_cause hist).1, (hhigh ist.irq_cause hist).2,
          by decide, by decide⟩

/-- Witness for C9 at cause 5, clear byte 0x04, checking bit 2 and bit 8. -/
theorem C9_write_one_to_clear_witness :
    c9state.irq_cause < 65536 ∧ c9irq.irq_cause < 65536 ∧ (0x04 : Nat) < 256 ∧
    ((indexed_memory_write_irq_cause_low c9state 0x04).irq_cause.testBit 2
        = (c9state.irq_cause.testBit 2 && !((0x04 : Nat).testBit 2)) ∧
     (indexed_memory_write_irq_cause_low c9state 0x04).irq_cause = 1) :=
  ⟨by decide, by decide, by decide,
   (C9_write_one_to_clear c9state c9irq 0x04 (by decide) (by decide) (by decide)).1 2 (by decide),
   (C9_write_one_to_clear c9state c9irq 0x04 (by decide) (by decide) (by decide)).2.2.2.2.2.2.2.2.1⟩

/-- Setting STATUS_MEMORY_ERROR sets status bit 2 and keeps it through a
possible later OR of the pending bit. -/
lemma testBit_two_or_mem_error (s : Nat) : (s ||| STATUS_MEMORY_ERROR).testBit 2 = true := by
  rw [STATUS_MEMORY_ERROR, Nat.testBit_or, show (4:Nat).testBit 2 = true from by decide,
    Bool.or_true]

/-- ORing the pending bit does not clear status bit 2. -/
lemma testBit_two_or_pending (s : Nat) :
    (s ||| STATUS_IRQ_PENDING).testBit 2 = s.testBit 2 := by
  rw [STATUS_IRQ_PENDING, Nat.testBit_or, show (2:Nat).testBit 2 = false from by decide,
    Bool.or_false]

/-- Raising a cause sets the corresponding cause bit. -/
lemma testBit_zero_or_mem_error (c : Nat) : (c ||| IRQ_MEMORY_ERROR).testBit 0 = true := by
  rw [IRQ_MEMORY_ERROR, Nat.testBit_or, show (1:Nat).testBit 0 = true from by decide,
    Bool.or_true]

/-- C4: accessing a slot whose current address is outside the backing store
raises MEMORY_ERROR: the read returns sentinel 0, the write stores nothing,
status bit 2 (STATUS_MEMORY_ERROR) is set, cause bit 0 (IRQ_MEMORY_ERROR)
is raised, and the whole slot table — the addressed slot included, with no
auto-step — and the backing store are left unchanged. -/
theorem C4_out_of_bounds_error (st : EngineState) (s b : Nat)
    (hout : MIA_MEMORY_SIZE ≤ (st.indexes s).current_addr) :
    (indexed_memory_read st s).1 = 0 ∧
    (indexed_memory_read st s).2.indexes = st.indexes ∧
    (indexed_memory_read st s).2.mem = st.mem ∧
    (indexed_memory_read st s).2.status.testBit 2 = true ∧
    (indexed_memory_read st s).2.irq_cause.testBit 0 = true ∧
    (indexed_memory_write st s b).indexes = st.indexes ∧
    (indexed_memory_write st s b).mem = st.mem ∧
    (indexed_memory_write st s b).status.testBit 2 = true ∧
    (indexed_memory_write st s b).irq_cause.testBit 0 = true := by
  have hread : indexed_memory_read st s =
      (0, indexed_memory_set_irq
            { st with status := st.status ||| STATUS_MEMORY_ERROR } IRQ_MEMORY_ERROR) := by
    simp only [indexed_memory_read]
    rw [if_pos hout]
  have hwrite : indexed_memory_write st s b =
      indexed_memory_set_irq
        { st with status := st.status ||| STATUS_MEMORY_ERROR } IRQ_MEMORY_ERROR := by
    simp only [indexed_memory_write]
    rw [if_pos hout]
  have hstatus :
      (indexed_memory_set_irq
        { st with status := st.status ||| STATUS_MEMORY_ERROR } IRQ_MEMORY_ERROR).status.testBit 2
        = true := by
    simp only [indexed_memory_set_irq]
    split_ifs <;> first
      | rw [testBit_two_or_pending, testBit_two_or_mem_error]
      | rw [testBit_two_or_mem_error]
  have hcause :
      (indexed_memory_set_irq
        { st with status := st.status ||| STATUS_MEMORY_ERROR } IRQ_MEMORY_ERROR).irq_cause.testBit 0
        = true := by
    simp only [indexed_memory_set_irq]
    exact testBit_zero_or_mem_error st.irq_cause
  rw [hread, hwrite]
  exact ⟨rfl, rfl, rfl, hstatus, hcause, rfl, rfl, hstatus, hcause⟩

/-- A concrete out-of-bounds configuration: slot 9 points past the 256KB
backing store. -/
def c4state : EngineState :=
  { witState with indexes := fun i => if i = 9 then ⟨0x80000, 0, 0, 1, 1⟩ else zeroSlot }

/-- Witness for C4 at slot 9 of c4state. -/
theorem C4_out_of_bounds_error_witness :
    MIA_MEMORY_SIZE ≤ (c4state.indexes 9).current_addr ∧
    ((indexed_memory_read c4state 9).1 = 0 ∧
     (indexed_memory_read c4state 9).2.indexes = c4state.indexes ∧
     (indexed_memory_read c4state 9).2.mem = c4state.mem ∧
     (indexed_memory_read c4state 9).2.status.testBit 2 = true ∧
     (indexed_memory_read c4state 9).2.irq_cause.testBit 0 = true ∧
     (indexed_memory_write c4state 9 0x55).indexes = c4state.indexes ∧
     (indexed_memory_write c4state 9 0x55).mem = c4state.mem ∧
     (indexed_memory_write c4state 9 0x55).status.testBit 2 = true ∧
     (indexed_memory_write c4state 9 0x55).irq_cause.testBit 0 = true) :=
  ⟨by decide, C4_out_of_bounds_error c4state 9 0x55 (by decide)⟩

/-- C5: an accepted COPY_BLOCK (nonzero 16-bit count, both current
addresses and both ranges within bounds, no DMA in flight) copies the bytes
and — command and synchronous completion callback included — leaves every
slot of the table exactly as it was (no auto-step or wrap runs) and leaves
the DMA configuration unchanged; the slots are pure address sources. -/
theorem C5_copy_block_frame (st : EngineState) (src dst cnt : Nat)
    (hcnt : cnt < 65536) (hpos : 0 < cnt)
    (hsrc : (st.indexes src).current_addr < MIA_MEMORY_SIZE)
    (hdst : (st.indexes dst).current_addr < MIA_MEMORY_SIZE)
    (hsrce : (st.indexes src).current_addr + cnt ≤ MIA_MEMORY_SIZE)
    (hdste : (st.indexes dst).current_addr + cnt ≤ MIA_MEMORY_SIZE)
    (hbusy : st.status &&& STATUS_DMA_ACTIVE = 0) :
    (indexed_memory_copy_block st src dst cnt).indexes = st.indexes ∧
    (indexed_memory_copy_block st src dst cnt).dma_config = st.dma_config ∧
    (indexed_memory_copy_block st src dst cnt).mem
      = copyMem st.mem ((st.indexes dst).current_addr) ((st.indexes src).current_addr) cnt := by
  have hm : cnt % 65536 = cnt := Nat.mod_eq_of_lt hcnt
  have hcopy : indexed_memory_copy_block st src dst cnt =
      indexed_memory_set_irq
        { st with
          status := (st.status ||| STATUS_DMA_ACTIVE) &&& (0xFF ^^^ STATUS_DMA_ACTIVE),
          mem := copyMem st.mem ((st.indexes dst).current_addr) ((st.indexes src).current_addr) cnt,
          dma_busy := false } IRQ_DMA_COMPLETE := by
    simp only [indexed_memory_copy_block, hm]
    rw [if_neg (by omega), if_neg (not_le.mpr hsrc), if_neg (not_le.mpr hdst),
      if_neg (by omega), if_neg (by simp [hbusy])]
  rw [hcopy]
  exact ⟨rfl, rfl, rfl⟩

/-- A concrete state for the copy witnesses: slot 0 points at 0x100, slot 1
at 0x200, nothing else special, no DMA in flight. -/
def c5state : EngineState :=
  { witState with indexes := fun i => if i = 0 then ⟨0x100, 0x100, 0, 1, 1⟩
      else if i = 1 then ⟨0x200, 0x200, 0, 1, 1⟩ else zeroSlot }

/-- Witness for C5: a 10-byte copy from slot 0 to slot 1 of c5state. -/
theorem C5_copy_block_frame_witness :
    ((10 : Nat) < 65536 ∧ (0 : Nat) < 10 ∧
     (c5state.indexes 0).current_addr < MIA_MEMORY_SIZE ∧
     (c5state.indexes 1).current_addr < MIA_MEMORY_SIZE ∧
     (c5state.indexes 0).current_addr + 10 ≤ MIA_MEMORY_SIZE ∧
     (c5state.indexes 1).current_addr + 10 ≤ MIA_MEMORY_SIZE ∧
     c5state.status &&& STATUS_DMA_ACTIVE = 0) ∧
    ((indexed_memory_copy_block c5state 0 1 10).indexes = c5state.indexes ∧
     (indexed_memory_copy_block c5state 0 1 10).dma_config = c5state.dma_config ∧
     (indexed_memory_copy_block c5state 0 1 10).mem
       = copyMem c5state.mem ((c5state.indexes 1).current_addr) ((c5state.indexes 0).current_addr) 10) :=
  ⟨⟨by decide, by decide, by decide, by decide, by decide, by decide, by decide⟩,
   C5_copy_block_frame c5state 0 1 10 (by decide) (by decide) (by decide) (by decide)
     (by decide) (by decide) (by decide)⟩

/-- A concrete state with a DMA transfer marked in flight (STATUS_DMA_ACTIVE
set) and global interrupts disabled; slots 0 and 1 are valid. -/
def c6state : EngineState :=
  { c5state with status := 0xC0, irq_enable := 0 }

/-- C6 counterexample: with a DMA in flight, a COPY_BLOCK request is
rejected — the IRQ_DMA_ERROR cause bit is raised — but the status register
is completely unchanged, so no status bit is set by the rejection,
contradicting the claim as stated. -/
theorem C6_counterexample :
    c6state.status &&& STATUS_DMA_ACTIVE ≠ 0 ∧
    (indexed_memory_copy_block c6state 0 1 1).irq_cause
      = c6state.irq_cause ||| IRQ_DMA_ERROR ∧
    (indexed_memory_copy_block c6state 0 1 1).status = c6state.status ∧
    ¬ ∃ n : Nat, ((indexed_memory_copy_block c6state 0 1 1).status.testBit n = true ∧
                  c6state.status.testBit n = false) := by
  have hstat : (indexed_memory_copy_block c6state 0 1 1).status = c6state.status := by decide
  refine ⟨by decide, by decide, hstat, ?_⟩
  rintro ⟨n, h1, h2⟩
  rw [hstat, h2] at h1
  exact Bool.false_ne_true h1

/-- C6 amended: a COPY_BLOCK request that reaches the busy check (nonzero
count, both addresses and ranges in bounds) while STATUS_DMA_ACTIVE is set
is rejected atomically: the IRQ_DMA_ERROR cause bit is raised, no transfer
starts (backing store and busy flag untouched), slots, DMA configuration
and window selections are unchanged, and the status register changes only
by possibly gaining STATUS_IRQ_PENDING (when global enable is on and the
raised cause is unmasked) — no dedicated DMA-error status bit exists. -/
theorem C6_dma_busy_rejection (st : EngineState) (src dst cnt : Nat)
    (hcnt : cnt < 65536) (hpos : 0 < cnt)
    (hsrc : (st.indexes src).current_addr < MIA_MEMORY_SIZE)
    (hdst : (st.indexes dst).current_addr < MIA_MEMORY_SIZE)
    (hsrce : (st.indexes src).current_addr + cnt ≤ MIA_MEMORY_SIZE)
    (hdste : (st.indexes dst).current_addr + cnt ≤ MIA_MEMORY_SIZE)
    (hbusy : st.status &&& STATUS_DMA_ACTIVE ≠ 0) :
    (indexed_memory_copy_block st src dst cnt).irq_cause = st.irq_cause ||| IRQ_DMA_ERROR ∧
    (indexed_memory_copy_block st src dst cnt).indexes = st.indexes ∧
    (indexed_memory_copy_block st src dst cnt).mem = st.mem ∧
    (indexed_memory_copy_block st src dst cnt).dma_busy = st.dma_busy ∧
    (indexed_memory_copy_block st src dst cnt).dma_config = st.dma_config ∧
    (indexed_memory_copy_block st src dst cnt).window_a_idx = st.window_a_idx ∧
    (indexed_memory_copy_block st src dst cnt).window_b_idx = st.window_b_idx ∧
    (indexed_memory_copy_block st src dst cnt).cfg_field_a = st.cfg_field_a ∧
    (indexed_memory_copy_block st src dst cnt).cfg_field_b = st.cfg_field_b ∧
    (indexed_memory_copy_block st src dst cnt).status
      = (if st.irq_enable ≠ 0 ∧ (st.irq_cause ||| IRQ_DMA_ERROR) &&& st.irq_mask ≠ 0
         then st.status ||| STATUS_IRQ_PENDING else st.status) := by
  have hm : cnt % 65536 = cnt := Nat.mod_eq_of_lt hcnt
  have hreject : indexed_memory_copy_block st src dst cnt =
      indexed_memory_set_irq st IRQ_DMA_ERROR := by
    simp only [indexed_memory_copy_block, hm]
    rw [if_neg (by omega), if_neg (not_le.mpr hsrc), if_neg (not_le.mpr hdst),
      if_neg (by omega), if_pos hbusy]
  rw [hreject]
  exact ⟨rfl, rfl, rfl, rfl, rfl, rfl, rfl, rfl, rfl, rfl⟩

/-- Witness for the amended C6 at c6state (count 1, slots 0 and 1). -/
theorem C6_dma_busy_rejection_witness :
    ((1 : Nat) < 65536 ∧ (0 : Nat) < 1 ∧
     (c6state.indexes 0).current_addr < MIA_MEMORY_SIZE ∧
     (c6state.indexes 1).current_addr < MIA_MEMORY_SIZE ∧
     (c6state.indexes 0).current_addr + 1 ≤ MIA_MEMORY_SIZE ∧
     (c6state.indexes 1).current_addr + 1 ≤ MIA_MEMORY_SIZE ∧
     c6state.status &&& STATUS_DMA_ACTIVE ≠ 0) ∧
    ((indexed_memory_copy_block c6state 0 1 1).irq_cause
        = c6state.irq_cause ||| IRQ_DMA_ERROR ∧
     (indexed_memory_copy_block c6state 0 1 1).indexes = c6state.indexes ∧
     (indexed_memory_copy_block c6state 0 1 1).mem = c6state.mem ∧
     (indexed_memory_copy_block c6state 0 1 1).dma_busy = c6state.dma_busy ∧
     (indexed_memory_copy_block c6state 0 1 1).dma_config = c6state.dma_config ∧
     (indexed_memory_copy_block c6state 0 1 1).window_a_idx = c6state.window_a_idx ∧
     (indexed_memory_copy_block c6state 0 1 1).window_b_idx = c6state.window_b_idx ∧
     (indexed_memory_copy_block c6state 0 1 1).cfg_field_a = c6state.cfg_field_a ∧
     (indexed_memory_copy_block c6state 0 1 1).cfg_field_b = c6state.cfg_field_b ∧
     (indexed_memory_copy_block c6state 0 1 1).status
       = (if c6state.irq_enable ≠ 0 ∧
             (c6state.irq_cause ||| IRQ_DMA_ERROR) &&& c6state.irq_mask ≠ 0
          then c6state.status ||| STATUS_IRQ_PENDING else c6state.status)) :=
  ⟨⟨by decide, by decide, by decide, by decide, by decide, by decide, by decide⟩,
   C6_dma_busy_rejection c6state 0 1 1 (by decide) (by decide) (by decide) (by decide)
     (by decide) (by decide) (by decide)⟩

/-- A concrete state for the C7 counterexample: the window-A selection is
slot 0, and slot 5 has current address 1 and default address 2. -/
def c7state : EngineState :=
  { witState with indexes := fun i => if i = 5 then ⟨1, 2, 0, 0, 0⟩ else zeroSlot }

/-- C7 counterexample: executing command code 1 does not reset every slot's
current address to its default — code 1 is CMD_RESET_INDEX, which only
resets the window-A slot, so slot 5 keeps current address 1 instead of its
default 2. -/
theorem C7_counterexample :
    ((indexed_memory_execute_command c7state 1).indexes 5).current_addr
      ≠ (c7state.indexes 5).default_addr := by
  decide

/-- C7 amended: the RESET_ALL command is code 2 (CMD_RESET_ALL in the
header), not 1 (which is CMD_RESET_INDEX); executing command code 2 sets
every one of the 256 slots' current_address to that slot's default_address
and leaves every slot's default_address, limit_address, step and flags
unchanged. -/
theorem C7_reset_all (st : EngineState) (i : Nat) (hi : i < 256) :
    ((indexed_memory_execute_command st CMD_RESET_ALL).indexes i).current_addr
      = (st.indexes i).default_addr ∧
    ((indexed_memory_execute_command st CMD_RESET_ALL).indexes i).default_addr
      = (st.indexes i).default_addr ∧
    ((indexed_memory_execute_command st CMD_RESET_ALL).indexes i).limit_addr
      = (st.indexes i).limit_addr ∧
    ((indexed_memory_execute_command st CMD_RESET_ALL).indexes i).step
      = (st.indexes i).step ∧
    ((indexed_memory_execute_command st CMD_RESET_ALL).indexes i).flags
      = (st.indexes i).flags := by
  show ((indexed_memory_reset_all st).indexes i).current_addr = (st.indexes i).default_addr ∧
       ((indexed_memory_reset_all st).indexes i).default_addr = (st.indexes i).default_addr ∧
       ((indexed_memory_reset_all st).indexes i).limit_addr = (st.indexes i).limit_addr ∧
       ((indexed_memory_reset_all st).indexes i).step = (st.indexes i).step ∧
       ((indexed_memory_reset_all st).indexes i).flags = (st.indexes i).flags
  simp only [indexed_memory_reset_all]
  rw [if_pos hi]
  exact ⟨rfl, rfl, rfl, rfl, rfl⟩

/-- Witness for the amended C7 at c7state, slot 5: command code 2 does
reset slot 5's current address to its default 2. -/
theorem C7_reset_all_witness :
    (5 : Nat) < 256 ∧
    (((indexed_memory_execute_command c7state CMD_RESET_ALL).indexes 5).current_addr
       = (c7state.indexes 5).default_addr ∧
     ((indexed_memory_execute_command c7state CMD_RESET_ALL).indexes 5).default_addr
       = (c7state.indexes 5).default_addr ∧
     ((indexed_memory_execute_command c7state CMD_RESET_ALL).indexes 5).limit_addr
       = (c7state.indexes 5).limit_addr ∧
     ((indexed_memory_execute_command c7state CMD_RESET_ALL).indexes 5).step
       = (c7state.indexes 5).step ∧
     ((indexed_memory_execute_command c7state CMD_RESET_ALL).indexes 5).flags
       = (c7state.indexes 5).flags) :=
  ⟨by decide, C7_reset_all c7state 5 (by decide)⟩

/-- The operation sequence that exhibits the 24-bit invariant violation:
make slot 2 a backward auto-stepping slot (step 1) at its factory current
address 0. -/
def c3ops : List EngOp := [EngOp.setStep 2 1, EngOp.setFlags 2 3]

/-- C3 failing input: from the factory state, configure slot 2 with step 1
and flags AUTO_STEP|DIRECTION (backward) — its current address is 0 — and
read once.  The stored current address becomes (0 - 1) mod 2^32 =
4294967295, which is not a 24-bit value: the auto-step store in
indexed_memory_read does not apply the 24-bit mask that every setter
applies, contradicting the documented invariant. -/
theorem C3_backward_step_breaks_24bit_mask :
    (((indexed_memory_read (engRun false c3ops) 2).2.indexes 2).current_addr
       = 4294967295) ∧
    ¬ (((indexed_memory_read (engRun false c3ops) 2).2.indexes 2).current_addr
       < 0x1000000) := by
  constructor
  · decide
  · decide

/-- Claim-side read decode, written from the spec's words: bit 7 set means
shared space (DEVICE_STATUS 0xF0, IRQ_CAUSE low/high 0xF1/0xF2, IRQ_MASK
low/high 0xF3/0xF4, IRQ_ENABLE 0xF5; everything else, the write-only
command register included, reads as zero); bit 7 clear means window space
with the window number in bits 6-4 and the register offset in bits 3-0
(0=IDX_SELECT, 1=DATA_PORT, 2=CFG_FIELD_SELECT, 3=CFG_DATA; 4=COMMAND is
write-only and offsets 5-15 are reserved, all reading zero). -/
def specBusRead (st : BusState) (a : Nat) : Nat × BusState :=
  if a.testBit 7 then
    if a = 0xF0 then (st.eng.status, st)
    else if a = 0xF1 then (st.eng.irq_cause &&& 0xFF, st)
    else if a = 0xF2 then ((st.eng.irq_cause >>> 8) &&& 0xFF, st)
    else if a = 0xF3 then (st.eng.irq_mask &&& 0xFF, st)
    else if a = 0xF4 then ((st.eng.irq_mask >>> 8) &&& 0xFF, st)
    else if a = 0xF5 then (st.eng.irq_enable, st)
    else (0, st)
  else
    let w := a / 16 % 8
    if a % 16 = 0 then ((st.win w).active_index, st)
    else if a % 16 = 1 then
      let r := indexed_memory_read st.eng (st.win w).active_index
      (r.1, { st with eng := r.2 })
    else if a % 16 = 2 then ((st.win w).config_field_select, st)
    else if a % 16 = 3 then
      (indexed_memory_get_config_field st.eng (st.win w).active_index
        (st.win w).config_field_select, st)
    else (0, st)

/-- Claim-side write decode, written from the spec's words: shared space
(bit 7 set): DEVICE_STATUS is read-only, IRQ cause writes are
write-1-to-clear, mask writes splice one byte of the 16-bit mask, 0xF5
sets global enable, 0xFF executes a shared command, reserved registers
ignore writes; window space: offset 0 selects the slot, 1 writes the data
port, 2 selects the config field, 3 writes it, 4 executes a window command
on the selected slot, offsets 5-15 ignore writes. -/
def specBusWrite (st : BusState) (a d : Nat) : BusState :=
  if a.testBit 7 then
    if a = 0xF0 then st
    else if a = 0xF1 then { st with eng := indexed_memory_write_irq_cause_low st.eng (d % 256) }
    else if a = 0xF2 then { st with eng := indexed_memory_write_irq_cause_high st.eng (d % 256) }
    else if a = 0xF3 then
      { st with eng := indexed_memory_set_irq_mask st.eng ((st.eng.irq_mask &&& 0xFF00) ||| (d % 256)) }
    else if a = 0xF4 then
      { st with eng := indexed_memory_set_irq_mask st.eng ((st.eng.irq_mask &&& 0x00FF) ||| ((d % 256) <<< 8)) }
    else if a = 0xF5 then { st with eng := indexed_memory_set_irq_enable st.eng (d % 256) }
    else if a = 0xFF then { st with eng := indexed_memory_execute_shared_command st.eng (d % 256) }
    else st
  else
    let w := a / 16 % 8
    if a % 16 = 0 then
      { st with win := updWin st.win w ({ st.win w with active_index := d % 256 }) }
    else if a % 16 = 1 then
      { st with eng := indexed_memory_write st.eng (st.win w).active_index d }
    else if a % 16 = 2 then
      { st with win := updWin st.win w ({ st.win w with config_field_select := d % 256 }) }
    else if a % 16 = 3 then
      { st with eng := indexed_memory_set_config_field st.eng (st.win w).active_index (st.win w).config_field_select d }
    else if a % 16 = 4 then
      { st with eng := indexed_memory_execute_window_command st.eng (st.win w).active_index (d % 256) }
    else st

/-- C8: the dispatcher decode agrees with the spec's address map on every
8-bit address — bit 7 selects shared space, bits 6-4 the window, bits 3-0
the offset; reserved window offsets 5-15 read 0 and ignore writes; the
window COMMAND register reads 0; reserved shared registers read 0 and
ignore writes; DEVICE_STATUS ignores writes; 0x11 is window 1's DATA_PORT
and 0xF0 the shared DEVICE_STATUS. -/
theorem C8_bus_decode (st : BusState) (a d : Nat) (ha : a < 256) :
    (bus_interface_read st a = specBusRead st a ∧
     bus_interface_write st a d = specBusWrite st a d) ∧
    (a &&& 0x80 = 0 → 5 ≤ a &&& 0x0F →
      bus_interface_read st a = (0, st) ∧ bus_interface_write st a d = st) ∧
    (a &&& 0x80 = 0 → a &&& 0x0F = 4 → (bus_interface_read st a).1 = 0) ∧
    (a &&& 0x80 ≠ 0 → a ≠ 0xF0 → a ≠ 0xF1 → a ≠ 0xF2 → a ≠ 0xF3 → a ≠ 0xF4 →
     a ≠ 0xF5 → a ≠ 0xFF → bus_interface_read st a = (0, st) ∧ bus_interface_write st a d = st) ∧
    bus_interface_write st 0xF0 d = st ∧
    (bus_interface_read st 0x11).1 = (indexed_memory_read st.eng (st.win 1).active_index).1 ∧
    (bus_interface_read st 0x11).2 = { st with eng := (indexed_memory_read st.eng (st.win 1).active_index).2 } ∧
    bus_interface_write st 0x11 d = { st with eng := indexed_memory_write st.eng (st.win 1).active_index d } ∧
    (bus_interface_read st 0xF0).1 = st.eng.status ∧
    (bus_interface_read st 0xF0).2 = st := by
  refine ⟨?_, ?_, ?_, ?_, rfl, rfl, rfl, rfl, rfl, rfl⟩
  · interval_cases a <;> exact ⟨rfl, rfl⟩
  · intro h80 hoff
    have h0 : ¬ a &&& 0x0F = 0 := by omega
    have h1 : ¬ a &&& 0x0F = 1 := by omega
    have h2 : ¬ a &&& 0x0F = 2 := by omega
    have h3 : ¬ a &&& 0x0F = 3 := by omega
    have h4 : ¬ a &&& 0x0F = 4 := by omega
    constructor
    · simp only [bus_interface_read, REG_OFFSET_IDX_SELECT, REG_OFFSET_DATA_PORT,
        REG_OFFSET_CFG_FIELD_SELECT, REG_OFFSET_CFG_DATA, REG_OFFSET_COMMAND]
      rw [if_neg (by simp [h80]), if_neg h1, if_neg h0, if_neg h3, if_neg h2]
    · simp only [bus_interface_write, REG_OFFSET_IDX_SELECT, REG_OFFSET_DATA_PORT,
        REG_OFFSET_CFG_FIELD_SELECT, REG_OFFSET_CFG_DATA, REG_OFFSET_COMMAND]
      rw [if_neg (by simp [h80]), if_neg h0, if_neg h1, if_neg h2, if_neg h3, if_neg h4]
  · intro h80 hoff
    simp only [bus_interface_read, REG_OFFSET_IDX_SELECT, REG_OFFSET_DATA_PORT,
      REG_OFFSET_CFG_FIELD_SELECT, REG_OFFSET_CFG_DATA, REG_OFFSET_COMMAND]
    rw [if_neg (by simp [h80]), if_neg (by omega : ¬ a &&& 0x0F = 1),
      if_neg (by omega : ¬ a &&& 0x0F = 0), if_neg (by omega : ¬ a &&& 0x0F = 3),
      if_neg (by omega : ¬ a &&& 0x0F = 2)]
  · intro h80 hF0 hF1 hF2 hF3 hF4 hF5 hFF
    constructor
    · simp only [bus_interface_read]
      rw [if_pos h80, if_neg (by simpa [REG_DEVICE_STATUS] using hF0),
        if_neg (by simpa [REG_IRQ_CAUSE_LOW] using hF1),
        if_neg (by simpa [REG_IRQ_CAUSE_HIGH] using hF2),
        if_neg (by simpa [REG_IRQ_MASK_LOW] using hF3),
        if_neg (by simpa [REG_IRQ_MASK_HIGH] using hF4),
        if_neg (by simpa [REG_IRQ_ENABLE] using hF5)]
    · simp only [bus_interface_write]
      rw [if_pos h80, if_neg (by simpa [REG_DEVICE_STATUS] using hF0),
        if_neg (by simpa [REG_IRQ_CAUSE_LOW] using hF1),
        if_neg (by simpa [REG_IRQ_CAUSE_HIGH] using hF2),
        if_neg (by simpa [REG_IRQ_MASK_LOW] using hF3),
        if_neg (by simpa [REG_IRQ_MASK_HIGH] using hF4),
        if_neg (by simpa [REG_IRQ_ENABLE] using hF5),
        if_neg (by simpa [REG_SHARED_COMMAND] using hFF)]

/-- A concrete dispatcher state for the bus witnesses. -/
def busWitState : BusState :=
  { eng := witState, win := fun w => ⟨w, 0⟩ }

/-- Witness for C8 at address 0x11 with data byte 0x5A. -/
theorem C8_bus_decode_witness :
    (0x11 : Nat) < 256 ∧
    (bus_interface_read busWitState 0x11 = specBusRead busWitState 0x11 ∧
     bus_interface_write busWitState 0x11 0x5A = specBusWrite busWitState 0x11 0x5A) :=
  ⟨by decide, (C8_bus_decode busWitState 0x11 0x5A (by decide)).1⟩

/-- C10: a bus read of any address that does not decode to a window
DATA_PORT (bit 7 set, or a register offset other than 1) is side-effect
free: the returned state is exactly the input state — window selections,
all slots, backing store, status, interrupt state and DMA configuration
included. -/
theorem C10_read_side_effect_free (st : BusState) (a : Nat) (ha : a < 256)
    (hnd : a &&& 0x80 ≠ 0 ∨ a &&& 0x0F ≠ 1) :
    (bus_interface_read st a).2 = st := by
  simp only [bus_interface_read, REG_OFFSET_IDX_SELECT, REG_OFFSET_DATA_PORT,
    REG_OFFSET_CFG_FIELD_SELECT, REG_OFFSET_CFG_DATA, REG_OFFSET_COMMAND]
  by_cases h7 : a &&& 0x80 ≠ 0
  · rw [if_pos h7]
    split_ifs <;> rfl
  · rcases hnd with h | h
    · exact absurd h h7
    · rw [if_neg h7, if_neg h]
      split_ifs <;> rfl

/-- Witness for C10 at shared address 0xF0 and reserved window offset 0x05. -/
theorem C10_read_side_effect_free_witness :
    ((0xF0 : Nat) < 256 ∧ ((0xF0 : Nat) &&& 0x80 ≠ 0 ∨ (0xF0 : Nat) &&& 0x0F ≠ 1) ∧
     (bus_interface_read busWitState 0xF0).2 = busWitState) ∧
    ((0x05 : Nat) < 256 ∧ ((0x05 : Nat) &&& 0x80 ≠ 0 ∨ (0x05 : Nat) &&& 0x0F ≠ 1) ∧
     (bus_interface_read busWitState 0x05).2 = busWitState) :=
  ⟨⟨by decide, by decide,
    C10_read_side_effect_free busWitState 0xF0 (by decide) (by decide)⟩,
   ⟨by decide, by decide,
    C10_read_side_effect_free busWitState 0x05 (by decide) (by decide)⟩⟩
